import Mathlib

/-!
Verification development for the simultaneous-turn arena battle engine
(`src/lib/games/arena.ts`).

The TypeScript source is shallowly embedded below.  Conventions of the
embedding:

* JS `number` values that the engine only ever treats as integers
  (hp, cooldowns, coordinates, round counters, damages) are embedded as `Int`.
* The damage multipliers are fixed decimal fractions (`0.5`, `0.7`, `0.9`,
  `1.5`, `2`, `3`), embedded as explicit numerator/denominator pairs
  (`Frac`); `Math.floor(d * m)` is embedded as `Int.fdiv (d * m.num) m.den`,
  the exact floor of the rational product.  For the integer operands and
  small magnitudes the engine produces, the IEEE-754 double computation in
  JS agrees with exact rational arithmetic (the relative error of the
  rounded constants is far below the distance to the nearest integer
  boundary), so the exact floor is a faithful model.
* `Math.random()`-derived draws (base damage, crit roll, dodge roll,
  unpredictable roll, power-up placement draws) are threaded explicitly as
  parameters, so every function is a deterministic function of its stubbed
  rolls, exactly as the spec's "damage order determinism" property demands.
* Narration strings are not modelled: in the source they are written into
  `TurnResult.narration` / `RoundResult.narrationSummary` and never read back
  by any game rule; every branch condition that also guards narration is kept.
* Unbounded rejection-sampling loops (`generateTerrain`'s wall/lava
  placement) are driven by an explicit finite list of draws; exhausting the
  list simply stops placing, which over-approximates the set of initial
  terrains and is therefore sound for the invariants proved below.
-/

namespace Arena

/-- Movement / knockback directions (`"north" | "south" | "east" | "west"`). -/
inductive Dir where
  | north
  | south
  | east
  | west
deriving DecidableEq, Repr

/-- The seven action types of `actionSchema`. -/
inductive ActionType where
  | move
  | attack
  | defend
  | special
  | dash
  | heal
  | charge
deriving DecidableEq, Repr

/-- An externally supplied action: `{type, direction?}` (the free-form
`reasoning` text is never read by the engine and is omitted). -/
structure Action where
  type : ActionType
  direction : Option Dir := none
deriving DecidableEq, Repr

/-- Tile kinds of the terrain grid. -/
inductive TileType where
  | empty
  | wall
  | lava
deriving DecidableEq, Repr

/-- Power-up kinds. -/
inductive PowerUpType where
  | heal
  | damage
  | shield
deriving DecidableEq, Repr

/-- Integer grid position `{x, z}`. -/
structure Pos where
  x : Int
  z : Int
deriving DecidableEq, Repr

/-- A power-up lying on the grid. -/
structure PowerUp where
  position : Pos
  type : PowerUpType
deriving DecidableEq, Repr

/-- A passive ability record `{name, description}`. -/
structure PassiveAbility where
  name : String
  description : String
deriving DecidableEq, Repr

/-- Fighter labels. -/
inductive FighterId where
  | a
  | b
deriving DecidableEq, Repr

/-- Possible outcomes recorded in `GameState.winner` (the `null` case is
an outer `Option`). -/
inductive Winner where
  | a
  | b
  | draw
deriving DecidableEq, Repr

/-- The `powerUpEffects` sub-record of a fighter. -/
structure PowerUpEffects where
  damageBoost : Bool
  shieldActive : Bool
deriving DecidableEq, Repr

/-- Mutable per-fighter aggregate, mirroring `FighterState` field by field. -/
structure FighterState where
  id : FighterId
  modelId : String
  modelName : String
  hp : Int
  maxHp : Int
  position : Pos
  defending : Bool
  specialCooldown : Int
  dashCooldown : Int
  healUses : Int
  chargeActive : Bool
  consecutiveCount : Int
  lastActionType : Option ActionType
  powerUpEffects : PowerUpEffects
  passive : PassiveAbility
  lastActions : List Action
deriving DecidableEq, Repr

/-- One fighter's recorded outcome for a round (narration text omitted). -/
structure TurnResult where
  fighter : FighterId
  action : Action
  damage : Int
  isCrit : Bool
  knockback : Bool
  counterDamage : Int
  dodged : Bool
deriving DecidableEq, Repr

/-- One round's log entry. -/
structure RoundResult where
  round : Int
  resultA : TurnResult
  resultB : TurnResult
deriving DecidableEq, Repr

/-- The terrain grid, indexed `terrain[z][x]`. -/
abbrev Terrain := List (List TileType)

/-- The full game state, mirroring `GameState` (the two-element `fighters`
tuple is a pair). -/
structure GameState where
  fighters : FighterState × FighterState
  round : Int
  log : List RoundResult
  winner : Option Winner
  terrain : Terrain
  powerUps : List PowerUp
  shrinkLevel : Int
deriving DecidableEq, Repr

/-! Constants from the source. -/

def GRID_SIZE : Int := 10

def ATTACK_MIN : Int := 15

def ATTACK_MAX : Int := 25

def SPECIAL_MIN : Int := 10

def SPECIAL_MAX : Int := 20

def SPECIAL_RANGE : Int := 3

def SPECIAL_COOLDOWN : Int := 3

def DASH_COOLDOWN : Int := 3

def HEAL_AMOUNT : Int := 15

def MAX_HEAL_USES : Int := 2

/-- A fixed decimal-fraction damage multiplier (a JS `number` constant). -/
structure Frac where
  num : Int
  den : Int
deriving DecidableEq, Repr

/-- The embedding of `Math.floor(d * m)` for a decimal-fraction multiplier:
the exact floor of the rational product `d * m.num / m.den`. -/
def floorMul (d : Int) (m : Frac) : Int :=
  Int.fdiv (d * m.num) m.den

def CHARGE_MULTIPLIER : Frac := ⟨3, 2⟩

def CRIT_MULTIPLIER : Frac := ⟨2, 1⟩

/-- The Berserker crit multiplier (`3` in the source). -/
def BERSERKER_CRIT_MULTIPLIER : Frac := ⟨3, 1⟩

/-- The shield / defend halving (`0.5` in the source). -/
def HALF : Frac := ⟨1, 2⟩

/-- The Fortified reduction (`0.9` in the source). -/
def NINE_TENTHS : Frac := ⟨9, 10⟩

/-- The neutral combo multiplier (`1` in the source). -/
def UNIT_MULT : Frac := ⟨1, 1⟩

def COUNTER_DAMAGE : Int := 8

def COMBO_DECAY_THRESHOLD : Int := 3

def COMBO_DECAY_FACTOR : Frac := ⟨7, 10⟩

def LAVA_DAMAGE : Int := 10

def WALL_KNOCKBACK_DAMAGE : Int := 5

def SHRINK_INTERVAL : Int := 10

def POWERUP_SPAWN_INTERVAL : Int := 4

def MAX_ROUNDS : Int := 25

/-! Passive names (the `PASSIVE` constant object). -/

def PASSIVE_SPEED : String := "Speed"

def PASSIVE_FORTIFIED : String := "Fortified"

def PASSIVE_REGENERATION : String := "Regeneration"

def PASSIVE_EVASION : String := "Evasion"

def PASSIVE_BERSERKER : String := "Berserker"

def PASSIVE_UNPREDICTABLE : String := "Unpredictable"

/-- The `MODEL_PASSIVES` lookup table, as an association list. -/
def MODEL_PASSIVES : List (String × PassiveAbility) :=
  [ ("google/gemini-2.5-flash", ⟨"Speed", "Regular move goes 2 tiles"⟩),
    ("google/gemini-2.5-pro", ⟨"Fortified", "Takes 10% less damage"⟩),
    ("anthropic/claude-sonnet-4.5", ⟨"Regeneration", "Recover 3 HP per turn"⟩),
    ("openai/gpt-4o", ⟨"Evasion", "15% dodge chance"⟩),
    ("xai/grok-4.1-fast-non-reasoning", ⟨"Berserker", "Crits deal 3x instead of 2x"⟩),
    ("meta-llama/llama-4-maverick", ⟨"Unpredictable", "20% chance for +10 bonus damage"⟩) ]

def DEFAULT_PASSIVE : PassiveAbility := ⟨"None", "No passive ability"⟩

/-- `getPassive`: table lookup with a default. -/
def getPassive (modelId : String) : PassiveAbility :=
  ((MODEL_PASSIVES.find? (fun p => p.1 = modelId)).map Prod.snd).getD DEFAULT_PASSIVE

/-! Helper functions. -/

/-- `distance`: Manhattan distance. -/
def distance (a b : Pos) : Int :=
  |a.x - b.x| + |a.z - b.z|

/-- `isAdjacent`. -/
def isAdjacent (a b : Pos) : Bool :=
  distance a b = 1

/-- `isInRange`. -/
def isInRange (a b : Pos) (range : Int) : Bool :=
  distance a b ≤ range

/-- `clampToGrid`. -/
def clampToGrid (val : Int) : Int :=
  max 0 (min (GRID_SIZE - 1) val)

/-- One clamped step of `moveInDirection`'s loop body. -/
def moveStep (pos : Pos) (dir : Dir) : Pos :=
  match dir with
  | .north => { pos with z := clampToGrid (pos.z - 1) }
  | .south => { pos with z := clampToGrid (pos.z + 1) }
  | .east => { pos with x := clampToGrid (pos.x + 1) }
  | .west => { pos with x := clampToGrid (pos.x - 1) }

/-- `moveInDirection`: `steps` clamped unit steps in direction `dir`. -/
def moveInDirection (pos : Pos) (dir : Dir) : Nat → Pos
  | 0 => pos
  | n + 1 => moveInDirection (moveStep pos dir) dir n

/-- Bounds-checked grid read (`terrain[pos.z]?.[pos.x]`; out-of-range reads
give `undefined` in JS, `none` here). -/
def tileAt (terrain : Terrain) (pos : Pos) : Option TileType :=
  if pos.z < 0 ∨ pos.x < 0 then none
  else (terrain.get? pos.z.toNat).bind (fun row => row.get? pos.x.toNat)

/-- `isWall`. -/
def isWall (terrain : Terrain) (pos : Pos) : Bool :=
  tileAt terrain pos = some .wall

/-- `isLava`. -/
def isLava (terrain : Terrain) (pos : Pos) : Bool :=
  tileAt terrain pos = some .lava

/-- One of `hasLineOfSight`'s two scanning loops: walk from `pos` by
`(dx, dz)` for `fuel` steps (the number of tiles separating the walker from
the target on the scanned axis), stopping early with `true` when the walked
cell is exactly the target (the source's `break`) and with `false` when it
is a wall. -/
def losWalk (terrain : Terrain) (target : Pos) (dx dz : Int) : Pos → Nat → Bool
  | _, 0 => true
  | pos, fuel + 1 =>
    let next : Pos := ⟨pos.x + dx, pos.z + dz⟩
    if next = target then true
    else if isWall terrain next then false
    else losWalk terrain target dx dz next fuel

/-- `hasLineOfSight`: scan along x from the source, then along z from the
corner `(to.x, from.z)`. -/
def hasLineOfSight (terrain : Terrain) (src dst : Pos) : Bool :=
  let dx := Int.sign (dst.x - src.x)
  let dz := Int.sign (dst.z - src.z)
  losWalk terrain dst dx 0 src (dst.x - src.x).natAbs &&
    losWalk terrain dst 0 dz ⟨dst.x, src.z⟩ (dst.z - src.z).natAbs

/-- `getKnockbackDir`: dominant axis, ties favour x. -/
def getKnockbackDir (attacker defender : Pos) : Dir :=
  let dx := defender.x - attacker.x
  let dz := defender.z - attacker.z
  if |dx| ≥ |dz| then (if dx ≥ 0 then .east else .west)
  else (if dz ≥ 0 then .south else .north)

/-! Terrain generation. -/

/-- The spawn safe zones skipped by `generateTerrain`'s placement loops. -/
def inSafeZone (x z : Int) : Bool :=
  (1 ≤ x ∧ x ≤ 3 ∧ 4 ≤ z ∧ z ≤ 6) ∨ (6 ≤ x ∧ x ≤ 8 ∧ 4 ≤ z ∧ z ≤ 6)

/-- Write one grid cell (`terrain[z][x] = t`). -/
def setTile (terrain : Terrain) (pos : Pos) (t : TileType) : Terrain :=
  if pos.z < 0 ∨ pos.x < 0 then terrain
  else terrain.set pos.z.toNat
    (((terrain.get? pos.z.toNat).getD []).set pos.x.toNat t)

/-- One of `generateTerrain`'s rejection-sampling placement loops
(`while (placed < count)`): each candidate draw is skipped when it falls in
a safe zone or on a non-empty cell.  The source draws forever until `count`
cells are placed; here the loop stops when the supplied draws run out,
which can only under-place (an over-approximation of reachable terrains). -/
def placeTiles (t : TileType) : Terrain → Nat → List (Int × Int) → Terrain
  | g, 0, _ => g
  | g, _ + 1, [] => g
  | g, need + 1, (x, z) :: rest =>
    if inSafeZone x z then placeTiles t g (need + 1) rest
    else if tileAt g ⟨x, z⟩ = some .empty then
      placeTiles t (setTile g ⟨x, z⟩ t) need rest
    else placeTiles t g (need + 1) rest

/-- The all-empty starting grid. -/
def emptyGrid : Terrain :=
  List.replicate 10 (List.replicate 10 .empty)

/-- `generateTerrain`: place `wallCount ∈ [5,8]` walls, then
`lavaCount ∈ [2,3]` lava cells (the counts and the candidate coordinates are
the stubbed random draws). -/
def generateTerrain (wallCount lavaCount : Nat)
    (wallDraws lavaDraws : List (Int × Int)) : Terrain :=
  placeTiles .lava (placeTiles .wall emptyGrid wallCount wallDraws) lavaCount lavaDraws

/-- One ring pass of `shrinkArena`'s loop body for ring index `i`:
every non-wall cell on row/column `i` or `GRID_SIZE - 1 - i` becomes lava. -/
def shrinkRing (g : Terrain) (i : Nat) : Terrain :=
  g.enum.map (fun zr =>
    zr.2.enum.map (fun xt =>
      if (xt.1 = i ∨ (xt.1 : Int) = GRID_SIZE - 1 - i ∨ zr.1 = i ∨
          (zr.1 : Int) = GRID_SIZE - 1 - i) ∧ xt.2 ≠ .wall
      then .lava else xt.2))

/-- `shrinkArena`: apply ring passes for `i = 0 .. level-1`. -/
def shrinkArena (terrain : Terrain) (level : Int) : Terrain :=
  (List.range level.toNat).foldl shrinkRing terrain

/-! Power-up spawning. -/

/-- The `types` array inside `spawnPowerUp`. -/
def powerUpTypes : List PowerUpType :=
  [.heal, .damage, .shield]

/-- The body of `spawnPowerUp`'s `while (attempts < 30)` loop; `attempt`
indexes into the stubbed draw stream, `rem` is the remaining attempt budget. -/
def spawnGo (terrain : Terrain) (fighters : FighterState × FighterState)
    (existing : List PowerUp) (draws : Nat → Int × Int) (typeRoll : Fin 3) :
    Nat → Nat → Option PowerUp
  | _, 0 => none
  | attempt, rem + 1 =>
    let x := (draws attempt).1
    let z := (draws attempt).2
    if ¬ (tileAt terrain ⟨x, z⟩ = some .empty) then
      spawnGo terrain fighters existing draws typeRoll (attempt + 1) rem
    else if fighters.1.position = (⟨x, z⟩ : Pos) ∨ fighters.2.position = (⟨x, z⟩ : Pos) then
      spawnGo terrain fighters existing draws typeRoll (attempt + 1) rem
    else if existing.any (fun p => p.position = (⟨x, z⟩ : Pos)) then
      spawnGo terrain fighters existing draws typeRoll (attempt + 1) rem
    else some ⟨⟨x, z⟩, powerUpTypes.get (typeRoll.cast (by rfl))⟩

/-- `spawnPowerUp`: up to 30 candidate draws. -/
def spawnPowerUp (terrain : Terrain) (fighters : FighterState × FighterState)
    (existing : List PowerUp) (draws : Nat → Int × Int) (typeRoll : Fin 3) :
    Option PowerUp :=
  spawnGo terrain fighters existing draws typeRoll 0 30

/-! Damage helpers. -/

/-- Result record of `computeAttackDamage`. -/
structure DamageCalcResult where
  damage : Int
  isCrit : Bool
deriving DecidableEq, Repr

/-- `computeAttackDamage`, with the two `Math.random()` comparisons stubbed
as `critRoll` (`< CRIT_CHANCE`) and `unpredRoll` (`< 0.2`). -/
def computeAttackDamage (baseDmg : Int) (attacker : FighterState)
    (comboMultiplier : Frac) (critRoll unpredRoll : Bool) : DamageCalcResult :=
  let d0 : Int := floorMul baseDmg comboMultiplier
  let d1 : Int := if attacker.chargeActive then floorMul d0 CHARGE_MULTIPLIER else d0
  let d2 : Int := if attacker.powerUpEffects.damageBoost then d1 + 10 else d1
  let d3 : Int :=
    if critRoll then
      floorMul d2
        (if attacker.passive.name = PASSIVE_BERSERKER then BERSERKER_CRIT_MULTIPLIER
         else CRIT_MULTIPLIER)
    else d2
  let d4 : Int :=
    if attacker.passive.name = PASSIVE_UNPREDICTABLE ∧ unpredRoll then d3 + 10 else d3
  ⟨d4, critRoll⟩

/-- Result record of `applyDefenses`. -/
structure DefenseResult where
  finalDamage : Int
  dodged : Bool
deriving DecidableEq, Repr

/-- `applyDefenses`, with the dodge `Math.random() < 0.15` stubbed as
`dodgeRoll`. -/
def applyDefenses (damage : Int) (defender : FighterState) (dodgeRoll : Bool) :
    DefenseResult :=
  if defender.passive.name = PASSIVE_EVASION ∧ dodgeRoll then ⟨0, true⟩
  else
    let d0 : Int := if defender.powerUpEffects.shieldActive then floorMul damage HALF else damage
    let d1 : Int := if defender.defending then floorMul d0 HALF else d0
    let d2 : Int := if defender.passive.name = PASSIVE_FORTIFIED then floorMul d1 NINE_TENTHS else d1
    ⟨d2, false⟩

/-! Initial state. -/

/-- `createInitialState`; the freshly generated random terrain is passed in
through its stubbed draws. -/
def createInitialState (modelAId modelAName modelBId modelBName : String)
    (wallCount lavaCount : Nat) (wallDraws lavaDraws : List (Int × Int)) :
    GameState :=
  { fighters :=
      ( { id := .a
          modelId := modelAId
          modelName := modelAName
          hp := 100
          maxHp := 100
          position := ⟨2, 5⟩
          defending := false
          specialCooldown := 0
          dashCooldown := 0
          healUses := MAX_HEAL_USES
          chargeActive := false
          consecutiveCount := 0
          lastActionType := none
          powerUpEffects := ⟨false, false⟩
          passive := getPassive modelAId
          lastActions := [] },
        { id := .b
          modelId := modelBId
          modelName := modelBName
          hp := 100
          maxHp := 100
          position := ⟨7, 5⟩
          defending := false
          specialCooldown := 0
          dashCooldown := 0
          healUses := MAX_HEAL_USES
          chargeActive := false
          consecutiveCount := 0
          lastActionType := none
          powerUpEffects := ⟨false, false⟩
          passive := getPassive modelBId
          lastActions := [] } )
    round := 1
    log := []
    winner := none
    terrain := generateTerrain wallCount lavaCount wallDraws lavaDraws
    powerUps := []
    shrinkLevel := 0 }

/-! Simultaneous round resolution. -/

/-- The step loop of `resolveMovement`: stop on a clamp no-op, a wall, or
the opponent's pre-round tile. -/
def moveLoop (terrain : Terrain) (opp : Pos) (dir : Dir) : Pos → Nat → Pos
  | pos, 0 => pos
  | pos, s + 1 =>
    let next := moveInDirection pos dir 1
    if next = pos then pos
    else if isWall terrain next then pos
    else if next = opp then pos
    else moveLoop terrain opp dir next s

/-- `resolveMovement`: intended destination of one fighter, resolved against
the opponent's pre-round position. -/
def resolveMovement (fighter : FighterState) (action : Action)
    (terrain : Terrain) (opponentOrigPos : Pos) : Pos :=
  if action.type ≠ .move ∧ action.type ≠ .dash then fighter.position
  else if action.type = .dash ∧ fighter.dashCooldown > 0 then fighter.position
  else
    let dir := action.direction.getD .north
    let steps : Nat :=
      if action.type = .move ∧ fighter.passive.name = PASSIVE_SPEED then 2
      else if action.type = .dash then 2 else 1
    moveLoop terrain opponentOrigPos dir fighter.position steps

/-- The `findIndex` scan of `pickupPowerUp`, returning the index and the
power-up found at the fighter's position. -/
def findPowerUp (pos : Pos) : List PowerUp → Option (Nat × PowerUp)
  | [] => none
  | p :: rest =>
    if p.position = pos then some (0, p)
    else (findPowerUp pos rest).map (fun ip => (ip.1 + 1, ip.2))

/-- `pickupPowerUp`: apply the found power-up's effect to the fighter and
report the index to splice out (narration message omitted). -/
def pickupPowerUp (fighter : FighterState) (powerUps : List PowerUp) :
    FighterState × Option Nat :=
  match findPowerUp fighter.position powerUps with
  | none => (fighter, none)
  | some (idx, pu) =>
    match pu.type with
    | .heal => ({ fighter with hp := min fighter.maxHp (fighter.hp + 25) }, some idx)
    | .damage =>
      ({ fighter with powerUpEffects := { fighter.powerUpEffects with damageBoost := true } },
        some idx)
    | .shield =>
      ({ fighter with powerUpEffects := { fighter.powerUpEffects with shieldActive := true } },
        some idx)

/-- The stubbed random draws consumed by one fighter's attack resolution:
the `randInt` base damage and the three probability comparisons. -/
structure AttackRolls where
  baseDmg : Nat
  critRoll : Bool
  unpredRoll : Bool
  dodgeRoll : Bool

/-- The non-narration outputs of `resolveAttack`. -/
structure AttackOutcome where
  damage : Int
  isCrit : Bool
  knockback : Bool
  counterDamage : Int
  dodged : Bool
deriving DecidableEq, Repr

/-- The all-zero outcome returned when no damage branch runs. -/
def zeroOutcome : AttackOutcome :=
  ⟨0, false, false, 0, false⟩

/-- `resolveAttack`: returns the updated attacker, the updated defender and
the outcome record.  Mirrors the source branch for branch; the `baseDmg`
draw (`randInt(ATTACK_MIN, ATTACK_MAX)` resp. `randInt(SPECIAL_MIN,
SPECIAL_MAX)`) is the stubbed `r.baseDmg`. -/
def resolveAttack (attacker defender : FighterState) (action : Action)
    (terrain : Terrain) (comboMultiplier : Frac) (r : AttackRolls) :
    FighterState × FighterState × AttackOutcome :=
  if action.type = .attack then
    if isAdjacent attacker.position defender.position then
      let dcalc := computeAttackDamage r.baseDmg attacker comboMultiplier r.critRoll r.unpredRoll
      let attacker1 :=
        { attacker with
          chargeActive := false
          powerUpEffects := { attacker.powerUpEffects with damageBoost := false } }
      let defRes := applyDefenses dcalc.damage defender r.dodgeRoll
      if defRes.dodged then
        (attacker1, defender, ⟨0, dcalc.isCrit, false, 0, true⟩)
      else
        let damage := defRes.finalDamage
        let defender1 := { defender with hp := max 0 (defender.hp - damage) }
        -- `if (shieldActive) shieldActive = false` leaves the flag false either way
        let defender2 :=
          { defender1 with
            powerUpEffects := { defender1.powerUpEffects with shieldActive := false } }
        let counterDamage : Int := if defender.defending then COUNTER_DAMAGE else 0
        let attacker2 :=
          if defender.defending then
            { attacker1 with hp := max 0 (attacker1.hp - COUNTER_DAMAGE) }
          else attacker1
        let kbDir := getKnockbackDir attacker.position defender.position
        let kbPos := moveInDirection defender2.position kbDir 1
        if kbPos ≠ defender2.position then
          if isWall terrain kbPos then
            (attacker2,
              { defender2 with hp := max 0 (defender2.hp - WALL_KNOCKBACK_DAMAGE) },
              ⟨damage, dcalc.isCrit, true, counterDamage, false⟩)
          else if kbPos = attacker2.position then
            (attacker2, defender2, ⟨damage, dcalc.isCrit, false, counterDamage, false⟩)
          else
            let defender3 := { defender2 with position := kbPos }
            if isLava terrain kbPos then
              (attacker2,
                { defender3 with hp := max 0 (defender3.hp - LAVA_DAMAGE) },
                ⟨damage, dcalc.isCrit, true, counterDamage, false⟩)
            else
              (attacker2, defender3, ⟨damage, dcalc.isCrit, true, counterDamage, false⟩)
        else
          (attacker2, defender2, ⟨damage, dcalc.isCrit, false, counterDamage, false⟩)
    else
      (attacker, defender, zeroOutcome)
  else if action.type = .special then
    if attacker.specialCooldown > 0 then
      (attacker, defender, zeroOutcome)
    else if ¬ isInRange attacker.position defender.position SPECIAL_RANGE then
      ({ attacker with specialCooldown := SPECIAL_COOLDOWN }, defender, zeroOutcome)
    else if ¬ hasLineOfSight terrain attacker.position defender.position then
      ({ attacker with specialCooldown := SPECIAL_COOLDOWN }, defender, zeroOutcome)
    else
      let dcalc := computeAttackDamage r.baseDmg attacker comboMultiplier r.critRoll r.unpredRoll
      let attacker1 :=
        { attacker with
          chargeActive := false
          powerUpEffects := { attacker.powerUpEffects with damageBoost := false } }
      let defRes := applyDefenses dcalc.damage defender r.dodgeRoll
      if defRes.dodged then
        ({ attacker1 with specialCooldown := SPECIAL_COOLDOWN }, defender,
          ⟨0, dcalc.isCrit, false, 0, true⟩)
      else
        let damage := defRes.finalDamage
        let defender1 := { defender with hp := max 0 (defender.hp - damage) }
        let defender2 :=
          { defender1 with
            powerUpEffects := { defender1.powerUpEffects with shieldActive := false } }
        ({ attacker1 with specialCooldown := SPECIAL_COOLDOWN }, defender2,
          ⟨damage, dcalc.isCrit, false, 0, false⟩)
  else
    (attacker, defender, zeroOutcome)

/-! Round orchestration (`applyRound`), phase by phase. -/

/-- Phase 0 per-fighter bookkeeping: clear `defending`, decrement the two
cooldowns (floor 0), apply the Regeneration passive. -/
def bookkeepFighter (f : FighterState) : FighterState :=
  let f1 := { f with defending := false }
  let f2 :=
    if f1.specialCooldown > 0 then { f1 with specialCooldown := f1.specialCooldown - 1 } else f1
  let f3 :=
    if f2.dashCooldown > 0 then { f2 with dashCooldown := f2.dashCooldown - 1 } else f2
  if f3.passive.name = PASSIVE_REGENERATION ∧ f3.hp < f3.maxHp then
    { f3 with hp := min f3.maxHp (f3.hp + 3) }
  else f3

/-- The inner `getComboMultiplier` of `applyRound`: update the run counter
and report the damage multiplier for this round. -/
def comboUpdate (f : FighterState) (a : Action) : FighterState × Frac :=
  let f1 :=
    if f.lastActionType = some a.type then
      { f with consecutiveCount := f.consecutiveCount + 1 }
    else
      { f with consecutiveCount := 1, lastActionType := some a.type }
  (f1, if f1.consecutiveCount ≥ COMBO_DECAY_THRESHOLD then COMBO_DECAY_FACTOR else UNIT_MULT)

/-- Phase 1 stance handling (defend / charge / heal) for one fighter. -/
def stanceFighter (f : FighterState) (a : Action) : FighterState :=
  match a.type with
  | .defend => { f with defending := true }
  | .charge => { f with chargeActive := true }
  | .heal =>
    if f.healUses ≤ 0 then f
    else
      let f1 := { f with healUses := f.healUses - 1 }
      let healAmt := min HEAL_AMOUNT (f1.maxHp - f1.hp)
      { f1 with hp := f1.hp + healAmt }
  | _ => f

/-- A fighter after phases 0 and 1 (bookkeeping, combo tracking, stance). -/
def midFighter (f : FighterState) (a : Action) : FighterState :=
  stanceFighter (comboUpdate (bookkeepFighter f) a).1 a

/-- The combo multiplier computed for a fighter this round. -/
def comboOf (f : FighterState) (a : Action) : Frac :=
  (comboUpdate (bookkeepFighter f) a).2

/-- Applying a resolved movement for one fighter: set the position, set the
dash cooldown on an off-cooldown dash, pick up a power-up on the landing
tile (splicing it out of the list), then take lava damage if standing on
lava. -/
def applyMove (f : FighterState) (a : Action) (dest : Pos)
    (powerUps : List PowerUp) (terrain : Terrain) : FighterState × List PowerUp :=
  let f1 := { f with position := dest }
  let isDash := a.type = .dash
  let f2 :=
    if isDash ∧ f1.dashCooldown ≤ 0 then { f1 with dashCooldown := DASH_COOLDOWN } else f1
  let pick := pickupPowerUp f2 powerUps
  let f3 := pick.1
  let powerUps1 :=
    match pick.2 with
    | some i => powerUps.eraseIdx i
    | none => powerUps
  let f4 :=
    if isLava terrain f3.position then { f3 with hp := max 0 (f3.hp - LAVA_DAMAGE) } else f3
  (f4, powerUps1)

/-- Output of the movement phase. -/
structure MovementResult where
  fA : FighterState
  fB : FighterState
  powerUps : List PowerUp
deriving Repr

/-- Phase 2: resolve both intended destinations against the opponents'
pre-round positions, revert both on a head-on collision, otherwise apply
A's movement first (including its power-up splice), then B's. -/
def movementPhase (fA fB : FighterState) (aA aB : Action) (terrain : Terrain)
    (powerUps : List PowerUp) : MovementResult :=
  let origA := fA.position
  let origB := fB.position
  let movingA := aA.type = .move ∨ aA.type = .dash
  let movingB := aB.type = .move ∨ aB.type = .dash
  let destA := if movingA then resolveMovement fA aA terrain origB else origA
  let destB := if movingB then resolveMovement fB aB terrain origA else origB
  if destA = destB ∧ movingA ∧ movingB then ⟨fA, fB, powerUps⟩
  else
    let pA := if movingA then applyMove fA aA destA powerUps terrain else (fA, powerUps)
    let pB := if movingB then applyMove fB aB destB pA.2 terrain else (fB, pA.2)
    ⟨pA.1, pB.1, pB.2⟩

/-- The stubbed random draws for one `applyRound` call. -/
structure RoundRolls where
  a : AttackRolls
  b : AttackRolls
  spawnDraws : Nat → Int × Int
  spawnType : Fin 3

/-- Output of the attack phase. -/
structure AttackPhaseResult where
  fA : FighterState
  fB : FighterState
  outA : AttackOutcome
  outB : AttackOutcome
deriving Repr

/-- Phase 3: resolve A's attack fully (against post-movement positions),
then B's attack against the state A's attack produced. -/
def attackPhase (fA fB : FighterState) (aA aB : Action) (terrain : Terrain)
    (comboA comboB : Frac) (rolls : RoundRolls) : AttackPhaseResult :=
  let isAttackA := aA.type = .attack ∨ aA.type = .special
  let isAttackB := aB.type = .attack ∨ aB.type = .special
  let rA := if isAttackA then resolveAttack fA fB aA terrain comboA rolls.a
            else (fA, fB, zeroOutcome)
  let rB := if isAttackB then resolveAttack rA.2.1 rA.1 aB terrain comboB rolls.b
            else (rA.2.1, rA.1, zeroOutcome)
  ⟨rB.2.1, rB.1, rA.2.2, rB.2.2⟩

/-- Output of phases 0-3 together. -/
structure CoreResult where
  fA : FighterState
  fB : FighterState
  powerUps : List PowerUp
  outA : AttackOutcome
  outB : AttackOutcome
deriving Repr

/-- Phases 0-3 of `applyRound`: bookkeeping, combo tracking, stances,
movement, attacks. -/
def corePhases (s : GameState) (aA aB : Action) (rolls : RoundRolls) : CoreResult :=
  let fA2 := midFighter s.fighters.1 aA
  let fB2 := midFighter s.fighters.2 aB
  let m := movementPhase fA2 fB2 aA aB s.terrain s.powerUps
  let att := attackPhase m.fA m.fB aA aB s.terrain
    (comboOf s.fighters.1 aA) (comboOf s.fighters.2 aB) rolls
  ⟨att.fA, att.fB, m.powerUps, att.outA, att.outB⟩

/-- A's intended destination as `applyRound` computes it (used to state the
collision property). -/
def roundDestA (s : GameState) (aA aB : Action) : Pos :=
  resolveMovement (midFighter s.fighters.1 aA) aA s.terrain
    (midFighter s.fighters.2 aB).position

/-- B's intended destination as `applyRound` computes it. -/
def roundDestB (s : GameState) (aA aB : Action) : Pos :=
  resolveMovement (midFighter s.fighters.2 aB) aB s.terrain
    (midFighter s.fighters.1 aA).position

/-- The bounded action history push (`[...lastActions.slice(-2), action]`). -/
def pushAction (l : List Action) (a : Action) : List Action :=
  l.drop (l.length - 2) ++ [a]

/-- The phase 5 winner check (`both ≤ 0 → draw`, `B ≤ 0 → a`,
`A ≤ 0 → b`, otherwise no assignment). -/
def winCheck (fA fB : FighterState) : Option Winner :=
  if fA.hp ≤ 0 ∧ fB.hp ≤ 0 then some .draw
  else if fB.hp ≤ 0 then some .a
  else if fA.hp ≤ 0 then some .b
  else none

/-- Phase 5 end-of-round bookkeeping on the logged state: winner check,
round increment, arena shrink (with immediate lava damage), power-up spawn,
max-round fallback. -/
def endPhase (s1 : GameState) (rolls : RoundRolls) : GameState :=
  let fA := s1.fighters.1
  let fB := s1.fighters.2
  let winner1 :=
    match winCheck fA fB with
    | some w => some w
    | none => s1.winner
  let round := s1.round + 1
  let newShrinkLevel := Int.fdiv round SHRINK_INTERVAL
  let doShrink := newShrinkLevel > s1.shrinkLevel ∧ newShrinkLevel ≤ 4
  let terrain1 := if doShrink then shrinkArena s1.terrain newShrinkLevel else s1.terrain
  let shrinkLevel1 := if doShrink then newShrinkLevel else s1.shrinkLevel
  let fA1 :=
    if doShrink ∧ isLava terrain1 fA.position then
      { fA with hp := max 0 (fA.hp - LAVA_DAMAGE) }
    else fA
  let fB1 :=
    if doShrink ∧ isLava terrain1 fB.position then
      { fB with hp := max 0 (fB.hp - LAVA_DAMAGE) }
    else fB
  let powerUps1 :=
    if round % POWERUP_SPAWN_INTERVAL = 0 then
      match spawnPowerUp terrain1 (fA1, fB1) s1.powerUps rolls.spawnDraws rolls.spawnType with
      | some pu => s1.powerUps ++ [pu]
      | none => s1.powerUps
    else s1.powerUps
  let winner2 :=
    if round > MAX_ROUNDS ∧ winner1 = none then
      some (if fA1.hp = fB1.hp then Winner.draw else if fA1.hp > fB1.hp then Winner.a else Winner.b)
    else winner1
  { s1 with
    fighters := (fA1, fB1)
    round := round
    winner := winner2
    terrain := terrain1
    powerUps := powerUps1
    shrinkLevel := shrinkLevel1 }

/-- Phase 4: the round's log entry (`roundResult` in the source). -/
def roundResultOf (s : GameState) (aA aB : Action) (rolls : RoundRolls) :
    RoundResult :=
  let core := corePhases s aA aB rolls
  ⟨s.round,
    ⟨.a, aA, core.outA.damage, core.outA.isCrit, core.outA.knockback,
      core.outA.counterDamage, core.outA.dodged⟩,
    ⟨.b, aB, core.outB.damage, core.outB.isCrit, core.outB.knockback,
      core.outB.counterDamage, core.outB.dodged⟩⟩

/-- The state after phases 0-4: attack-phase fighters with the round's
actions pushed onto their bounded histories, the updated power-up list, and
the round's entry appended to the log (`s` just before the source's
phase 5). -/
def loggedState (s : GameState) (aA aB : Action) (rolls : RoundRolls) :
    GameState :=
  let core := corePhases s aA aB rolls
  { s with
    fighters :=
      ( { core.fA with lastActions := pushAction core.fA.lastActions aA },
        { core.fB with lastActions := pushAction core.fB.lastActions aB } )
    powerUps := core.powerUps
    log := s.log ++ [roundResultOf s aA aB rolls] }

/-- `applyRound`: the full round transition, returning the new state and
the round's log entry. -/
def applyRound (s : GameState) (aA aB : Action) (rolls : RoundRolls) :
    GameState × RoundResult :=
  (endPhase (loggedState s aA aB rolls) rolls, roundResultOf s aA aB rolls)

/-- Reachable game states: an initial state (over any stubbed terrain
draws), or one `applyRound` step from a reachable active state.  Callers
only invoke `applyRound` while `winner` is null, which the step constructor
records. -/
inductive Reachable : GameState → Prop where
  | init (modelAId modelAName modelBId modelBName : String)
      (wallCount lavaCount : Nat) (wallDraws lavaDraws : List (Int × Int)) :
      Reachable (createInitialState modelAId modelAName modelBId modelBName
        wallCount lavaCount wallDraws lavaDraws)
  | step (s : GameState) (aA aB : Action) (rolls : RoundRolls) :
      Reachable s → s.winner = none → Reachable (applyRound s aA aB rolls).1

/-! Spec-side comparison definitions.  These follow the wording of the
specification (§4.5), to be compared with the definitions translated from
the source. -/

/-- The offensive damage pipeline exactly as the spec words it: apply, in
order, the combo multiplier (floor after multiply), the 1.5x charge
multiplier (floored) when the charge flag is set, +10 when the damage-boost
flag is set, a floored 2x (3x for a Berserker) on a successful crit roll,
and +10 on a successful Unpredictable roll. -/
def specOffensiveDamage (d : Int) (combo : Frac) (chargeActive damageBoost : Bool)
    (passiveName : String) (critSuccess unpredSuccess : Bool) : Int :=
  let s1 := floorMul d combo
  let s2 := if chargeActive then floorMul s1 ⟨3, 2⟩ else s1
  let s3 := if damageBoost then s2 + 10 else s2
  let s4 :=
    if critSuccess then
      if passiveName = "Berserker" then floorMul s3 ⟨3, 1⟩ else floorMul s3 ⟨2, 1⟩
    else s3
  if passiveName = "Unpredictable" ∧ unpredSuccess then s4 + 10 else s4

/-- The defensive pipeline exactly as the spec words it: an Evasion dodge
yields zero damage with the dodge flag set; otherwise halve (floor) under
an active shield, halve (floor) again while defending, and multiply by 0.9
(floor) for a Fortified defender. -/
def specDefense (d : Int) (shieldActive defending : Bool) (passiveName : String)
    (dodgeSuccess : Bool) : DefenseResult :=
  if passiveName = "Evasion" ∧ dodgeSuccess then ⟨0, true⟩
  else
    let r1 := if shieldActive then floorMul d ⟨1, 2⟩ else d
    let r2 := if defending then floorMul r1 ⟨1, 2⟩ else r1
    let r3 := if passiveName = "Fortified" then floorMul r2 ⟨9, 10⟩ else r2
    ⟨r3, false⟩

/-! Claim theorems. -/

/-- C1: for every attack or special reaching damage computation with base
damage `d`, fixed combo multiplier and fixed crit/Unpredictable roll
outcomes, the final offensive damage equals the spec's pipeline applied
strictly in order — combo floor, then charge 1.5x floor, then +10 boost,
then crit 2x floor (3x for Berserker), then the Unpredictable +10 — each
multiplicative step floored before the next. -/
theorem c1_damage_order (d : Int) (attacker : FighterState) (combo : Frac)
    (critRoll unpredRoll : Bool) :
    (computeAttackDamage d attacker combo critRoll unpredRoll).damage =
      specOffensiveDamage d combo attacker.chargeActive
        attacker.powerUpEffects.damageBoost attacker.passive.name critRoll unpredRoll := by
  unfold computeAttackDamage specOffensiveDamage
  unfold CHARGE_MULTIPLIER CRIT_MULTIPLIER BERSERKER_CRIT_MULTIPLIER
  unfold PASSIVE_BERSERKER PASSIVE_UNPREDICTABLE
  dsimp only
  split_ifs <;> rfl

/-- C2: `applyDefenses` matches the spec's defense order (Evasion dodge to
zero with the dodge flag, else shield halving, defend halving, Fortified
0.9, each floored independently), and a landed (non-dodged) melee hit
clears the defender's shield flag. -/
theorem c2_defense_order (damage : Int) (defender : FighterState) (dodgeRoll : Bool) :
    applyDefenses damage defender dodgeRoll =
      specDefense damage defender.powerUpEffects.shieldActive defender.defending
        defender.passive.name dodgeRoll ∧
    ∀ (attacker : FighterState) (action : Action) (terrain : Terrain)
      (combo : Frac) (r : AttackRolls),
      action.type = .attack →
      isAdjacent attacker.position defender.position = true →
      (applyDefenses
          (computeAttackDamage r.baseDmg attacker combo r.critRoll r.unpredRoll).damage
          defender r.dodgeRoll).dodged = false →
      ((resolveAttack attacker defender action terrain combo r).2.1).powerUpEffects.shieldActive
        = false := by
  constructor
  · unfold applyDefenses specDefense
    unfold PASSIVE_EVASION PASSIVE_FORTIFIED
    rfl
  · intro attacker action terrain combo r hty hadj hnd
    unfold resolveAttack
    rw [hty]
    simp only [reduceIte, hadj, if_true]
    split_ifs <;> simp_all

/-! Concrete fixtures used by witnesses and counterexamples. -/

/-- A defender holding a shield, in a defending stance, with the Fortified
passive. -/
def shieldedDefender : FighterState :=
  { id := .b
    modelId := "model-b"
    modelName := "Model B"
    hp := 100
    maxHp := 100
    position := ⟨3, 5⟩
    defending := true
    specialCooldown := 0
    dashCooldown := 0
    healUses := 2
    chargeActive := false
    consecutiveCount := 0
    lastActionType := none
    powerUpEffects := ⟨false, true⟩
    passive := ⟨"Fortified", "Takes 10% less damage"⟩
    lastActions := [] }

/-- A plain fighter with no passive and full health, at A's spawn tile. -/
def sampleFighterA : FighterState :=
  { id := .a
    modelId := "model-a"
    modelName := "Model A"
    hp := 100
    maxHp := 100
    position := ⟨2, 5⟩
    defending := false
    specialCooldown := 0
    dashCooldown := 0
    healUses := 2
    chargeActive := false
    consecutiveCount := 0
    lastActionType := none
    powerUpEffects := ⟨false, false⟩
    passive := ⟨"None", "No passive ability"⟩
    lastActions := [] }

/-- A plain fighter with no passive, adjacent to `sampleFighterA`. -/
def sampleFighterB : FighterState :=
  { sampleFighterA with id := .b, position := ⟨3, 5⟩ }

/-- Fixed rolls: base damage 20, every probability roll failing, a constant
spawn draw stream. -/
def sampleRolls : RoundRolls :=
  ⟨⟨20, false, false, false⟩, ⟨20, false, false, false⟩, fun _ => (0, 0), ⟨0, by decide⟩⟩

/-- Closed witness for C2: a shielded, defending, Fortified defender taking
25 damage, and a landed adjacent melee consuming the shield flag. -/
theorem c2_defense_order_witness :
    applyDefenses 25 shieldedDefender false =
      specDefense 25 shieldedDefender.powerUpEffects.shieldActive
        shieldedDefender.defending shieldedDefender.passive.name false ∧
    (resolveAttack sampleFighterA shieldedDefender ⟨.attack, none⟩ emptyGrid
        UNIT_MULT ⟨20, false, false, false⟩).2.1.powerUpEffects.shieldActive = false := by
  have h := c2_defense_order 25 shieldedDefender false
  exact ⟨h.1, h.2 sampleFighterA ⟨.attack, none⟩ emptyGrid UNIT_MULT
    ⟨20, false, false, false⟩ rfl (by decide) (by decide)⟩

/-- C9: a `move`/`dash` action with an absent direction field resolves
exactly as if the direction were north (step toward decreasing z), and is
not a no-op: a concrete fighter issuing a directionless move steps north. -/
theorem c9_missing_direction_defaults_north :
    (∀ (f : FighterState) (ty : ActionType) (terrain : Terrain) (opp : Pos),
      resolveMovement f ⟨ty, none⟩ terrain opp =
        resolveMovement f ⟨ty, some .north⟩ terrain opp) ∧
    resolveMovement sampleFighterA ⟨.move, none⟩ emptyGrid ⟨7, 5⟩ =
      (⟨2, 4⟩ : Pos) ∧
    (⟨2, 4⟩ : Pos) ≠ sampleFighterA.position := by
  refine ⟨fun f ty terrain opp => rfl, by decide, by decide⟩

/-- A clamped step taken from the matching boundary edge is a no-op. -/
theorem moveStep_at_edge (x z : Int) :
    (z = 0 → moveStep ⟨x, z⟩ .north = ⟨x, z⟩) ∧
    (z = GRID_SIZE - 1 → moveStep ⟨x, z⟩ .south = ⟨x, z⟩) ∧
    (x = GRID_SIZE - 1 → moveStep ⟨x, z⟩ .east = ⟨x, z⟩) ∧
    (x = 0 → moveStep ⟨x, z⟩ .west = ⟨x, z⟩) := by
  unfold moveStep clampToGrid GRID_SIZE
  refine ⟨?_, ?_, ?_, ?_⟩ <;> intro h <;> simp [Pos.mk.injEq] <;> omega

/-- C10: a landed melee attack whose knockback direction points off the
grid (the defender stands on the boundary edge in that direction) clamps
the knockback destination to the defender's own tile; the defender does not
move, takes only the attack damage itself (no wall/lava knockback damage),
and the reported knockback flag is false. -/
theorem c10_knockback_clamped_at_boundary (attacker defender : FighterState)
    (action : Action) (terrain : Terrain) (combo : Frac) (r : AttackRolls)
    (hty : action.type = .attack)
    (hadj : isAdjacent attacker.position defender.position = true)
    (hnd : (applyDefenses
        (computeAttackDamage r.baseDmg attacker combo r.critRoll r.unpredRoll).damage
        defender r.dodgeRoll).dodged = false)
    (hedge : (match getKnockbackDir attacker.position defender.position with
      | .north => defender.position.z = 0
      | .south => defender.position.z = GRID_SIZE - 1
      | .east => defender.position.x = GRID_SIZE - 1
      | .west => defender.position.x = 0)) :
    moveInDirection defender.position
        (getKnockbackDir attacker.position defender.position) 1 = defender.position ∧
    (resolveAttack attacker defender action terrain combo r).2.2.knockback = false ∧
    (resolveAttack attacker defender action terrain combo r).2.1.position =
      defender.position ∧
    (resolveAttack attacker defender action terrain combo r).2.1.hp =
      max 0 (defender.hp -
        (applyDefenses
          (computeAttackDamage r.baseDmg attacker combo r.critRoll r.unpredRoll).damage
          defender r.dodgeRoll).finalDamage) := by
  have hclamp : moveInDirection defender.position
      (getKnockbackDir attacker.position defender.position) 1 = defender.position := by
    have he := moveStep_at_edge defender.position.x defender.position.z
    rcases hd : getKnockbackDir attacker.position defender.position with _ | _ | _ | _ <;>
      rw [hd] at hedge <;>
      simp only [moveInDirection] <;>
      [exact he.1 hedge; exact he.2.1 hedge; exact he.2.2.1 hedge; exact he.2.2.2 hedge]
  refine ⟨hclamp, ?_⟩
  unfold resolveAttack
  rw [hty]
  simp only [reduceIte, hadj, if_true]
  split_ifs <;> simp_all

/-- Closed witness for the C10 theorem: defender on the east edge, attacker
just west of it; the knockback is suppressed and only the raw 20 damage
lands. -/
theorem c10_knockback_clamped_at_boundary_witness :
    (resolveAttack { sampleFighterA with position := ⟨8, 5⟩ }
        { sampleFighterB with position := ⟨9, 5⟩ } ⟨.attack, none⟩ emptyGrid
        UNIT_MULT ⟨20, false, false, false⟩).2.2.knockback = false ∧
    (resolveAttack { sampleFighterA with position := ⟨8, 5⟩ }
        { sampleFighterB with position := ⟨9, 5⟩ } ⟨.attack, none⟩ emptyGrid
        UNIT_MULT ⟨20, false, false, false⟩).2.1.position = (⟨9, 5⟩ : Pos) ∧
    (resolveAttack { sampleFighterA with position := ⟨8, 5⟩ }
        { sampleFighterB with position := ⟨9, 5⟩ } ⟨.attack, none⟩ emptyGrid
        UNIT_MULT ⟨20, false, false, false⟩).2.1.hp = 80 := by
  have h := c10_knockback_clamped_at_boundary
    { sampleFighterA with position := ⟨8, 5⟩ }
    { sampleFighterB with position := ⟨9, 5⟩ } ⟨.attack, none⟩ emptyGrid
    UNIT_MULT ⟨20, false, false, false⟩ rfl (by decide) (by decide)
    (show (9 : Int) = GRID_SIZE - 1 by decide)
  exact ⟨h.2.1, h.2.2.1, by rw [h.2.2.2]; decide⟩

/-- A fighter holding both consumable offense flags. -/
def chargedFighter : FighterState :=
  { sampleFighterA with chargeActive := true, powerUpEffects := ⟨true, false⟩ }

/-- The charged fighter with its special still on cooldown. -/
def chargedCooldownFighter : FighterState :=
  { chargedFighter with specialCooldown := 2 }

/-- A game state in which the charged fighter stands 7 tiles away from the
opponent and attempts a melee attack. -/
def missedMeleeState : GameState :=
  { fighters := (chargedFighter, { sampleFighterB with position := ⟨9, 5⟩ })
    round := 1
    log := []
    winner := none
    terrain := emptyGrid
    powerUps := []
    shrinkLevel := 0 }

set_option maxHeartbeats 1000000 in
/-- C6 counterexample: a fighter with both `chargeActive` and `damageBoost`
set attempts a melee attack while 7 tiles away from the opponent; at the
end of the round both flags are still set, contradicting the claim that
they are consumed on any attack attempt. -/
theorem c6_counterexample_missed_melee_keeps_flags :
    (applyRound missedMeleeState ⟨.attack, none⟩ ⟨.defend, none⟩
        sampleRolls).1.fighters.1.chargeActive = true ∧
    (applyRound missedMeleeState ⟨.attack, none⟩ ⟨.defend, none⟩
        sampleRolls).1.fighters.1.powerUpEffects.damageBoost = true := by
  exact ⟨by decide, by decide⟩

set_option maxHeartbeats 2000000 in
/-- C6 (amended): the attacker's `chargeActive` and `damageBoost` flags are
consumed exactly when the attempt reaches damage computation — a melee
attack while adjacent, or a special that is off cooldown, in range and has
line of sight (in both cases whether or not the defender dodges); on a
melee attempted while not adjacent the attacker is unchanged, and on a
special rejected for cooldown, range or line of sight both flags are
retained. -/
theorem c6_flag_consumption_cases (attacker defender : FighterState)
    (action : Action) (terrain : Terrain) (combo : Frac) (r : AttackRolls) :
    (action.type = .attack → isAdjacent attacker.position defender.position = true →
      (resolveAttack attacker defender action terrain combo r).1.chargeActive = false ∧
      (resolveAttack attacker defender action terrain combo r).1.powerUpEffects.damageBoost
        = false) ∧
    (action.type = .attack → isAdjacent attacker.position defender.position = false →
      (resolveAttack attacker defender action terrain combo r).1 = attacker) ∧
    (action.type = .special → ¬ attacker.specialCooldown > 0 →
      isInRange attacker.position defender.position SPECIAL_RANGE = true →
      hasLineOfSight terrain attacker.position defender.position = true →
      (resolveAttack attacker defender action terrain combo r).1.chargeActive = false ∧
      (resolveAttack attacker defender action terrain combo r).1.powerUpEffects.damageBoost
        = false) ∧
    (action.type = .special →
      (attacker.specialCooldown > 0 ∨
        isInRange attacker.position defender.position SPECIAL_RANGE = false ∨
        hasLineOfSight terrain attacker.position defender.position = false) →
      (resolveAttack attacker defender action terrain combo r).1.chargeActive =
        attacker.chargeActive ∧
      (resolveAttack attacker defender action terrain combo r).1.powerUpEffects.damageBoost =
        attacker.powerUpEffects.damageBoost) := by
  refine ⟨?_, ?_, ?_, ?_⟩
  · intro hty hadj
    unfold resolveAttack
    rw [hty]
    simp only [reduceIte, hadj, if_true]
    constructor <;> split_ifs <;> rfl
  · intro hty hadj
    unfold resolveAttack
    rw [hty]
    simp [hadj]
  · intro hty hcd hrange hlos
    obtain ⟨ty, dir⟩ := action
    dsimp only at hty
    subst hty
    unfold resolveAttack
    rw [if_neg (by decide : ¬ (ActionType.special = ActionType.attack)), if_pos rfl,
      if_neg hcd, if_neg (not_not_intro hrange), if_neg (not_not_intro hlos)]
    constructor <;> dsimp only <;> split_ifs <;> rfl
  · intro hty hfail
    obtain ⟨ty, dir⟩ := action
    dsimp only at hty
    subst hty
    unfold resolveAttack
    rw [if_neg (by decide : ¬ (ActionType.special = ActionType.attack)), if_pos rfl]
    rcases hfail with h | h | h
    · rw [if_pos h]
      exact ⟨rfl, rfl⟩
    · have hr : ¬ isInRange attacker.position defender.position SPECIAL_RANGE = true := by
        simp [h]
      by_cases hc : attacker.specialCooldown > 0
      · rw [if_pos hc]
        exact ⟨rfl, rfl⟩
      · rw [if_neg hc, if_pos hr]
        exact ⟨rfl, rfl⟩
    · have hl : ¬ hasLineOfSight terrain attacker.position defender.position = true := by
        simp [h]
      by_cases hc : attacker.specialCooldown > 0
      · rw [if_pos hc]
        exact ⟨rfl, rfl⟩
      · rw [if_neg hc]
        by_cases hr : isInRange attacker.position defender.position SPECIAL_RANGE = true
        · rw [if_neg (not_not_intro hr), if_pos hl]
          exact ⟨rfl, rfl⟩
        · rw [if_pos hr]
          exact ⟨rfl, rfl⟩

/-- Closed witness for the C6 amended theorem: an adjacent melee consumes
both flags; a special rejected for cooldown retains them. -/
theorem c6_flag_consumption_cases_witness :
    (resolveAttack chargedFighter sampleFighterB ⟨.attack, none⟩ emptyGrid UNIT_MULT
      ⟨20, false, false, false⟩).1.chargeActive = false ∧
    (resolveAttack chargedFighter sampleFighterB ⟨.attack, none⟩ emptyGrid UNIT_MULT
      ⟨20, false, false, false⟩).1.powerUpEffects.damageBoost = false ∧
    (resolveAttack chargedCooldownFighter sampleFighterB ⟨.special, none⟩ emptyGrid UNIT_MULT
      ⟨20, false, false, false⟩).1.chargeActive = true ∧
    (resolveAttack chargedCooldownFighter sampleFighterB ⟨.special, none⟩ emptyGrid UNIT_MULT
      ⟨20, false, false, false⟩).1.powerUpEffects.damageBoost = true := by
  have h1 := (c6_flag_consumption_cases chargedFighter sampleFighterB ⟨.attack, none⟩
    emptyGrid UNIT_MULT ⟨20, false, false, false⟩).1 rfl (by decide)
  have h2 := (c6_flag_consumption_cases chargedCooldownFighter sampleFighterB ⟨.special, none⟩
    emptyGrid UNIT_MULT ⟨20, false, false, false⟩).2.2.2 rfl (Or.inl (by decide))
  exact ⟨h1.1, h1.2, h2.1.trans (by decide), h2.2.trans (by decide)⟩

/-! Projection lemmas for the phase functions. -/

/-- Phase 0 does not move a fighter. -/
theorem bookkeepFighter_position (f : FighterState) :
    (bookkeepFighter f).position = f.position := by
  unfold bookkeepFighter
  dsimp only
  split_ifs <;> rfl

/-- Combo tracking does not move a fighter. -/
theorem comboUpdate_position (f : FighterState) (a : Action) :
    ((comboUpdate f a).1).position = f.position := by
  unfold comboUpdate
  dsimp only
  split_ifs <;> rfl

/-- Stance handling does not move a fighter. -/
theorem stanceFighter_position (f : FighterState) (a : Action) :
    (stanceFighter f a).position = f.position := by
  unfold stanceFighter
  rcases a with ⟨ty, dir⟩
  cases ty <;> dsimp only <;> split_ifs <;> rfl

/-- Phases 0-1 together do not move a fighter. -/
theorem midFighter_position (f : FighterState) (a : Action) :
    (midFighter f a).position = f.position := by
  unfold midFighter
  rw [stanceFighter_position, comboUpdate_position, bookkeepFighter_position]

/-- The end phase does not move fighter A. -/
theorem endPhase_fst_position (s1 : GameState) (rolls : RoundRolls) :
    (endPhase s1 rolls).fighters.1.position = s1.fighters.1.position := by
  unfold endPhase
  dsimp only
  split_ifs <;> rfl

/-- The end phase does not move fighter B. -/
theorem endPhase_snd_position (s1 : GameState) (rolls : RoundRolls) :
    (endPhase s1 rolls).fighters.2.position = s1.fighters.2.position := by
  unfold endPhase
  dsimp only
  split_ifs <;> rfl

/-- When neither chosen action is an attack or special, the attack phase
leaves both fighters untouched. -/
theorem attackPhase_no_attack (fA fB : FighterState) (aA aB : Action)
    (terrain : Terrain) (comboA comboB : Frac) (rolls : RoundRolls)
    (hA : ¬ (aA.type = .attack ∨ aA.type = .special))
    (hB : ¬ (aB.type = .attack ∨ aB.type = .special)) :
    (attackPhase fA fB aA aB terrain comboA comboB rolls).fA = fA ∧
    (attackPhase fA fB aA aB terrain comboA comboB rolls).fB = fB := by
  unfold attackPhase
  dsimp only
  rw [if_neg hA, if_neg hB]
  exact ⟨rfl, rfl⟩

/-- When both fighters move and their resolved destinations coincide, the
movement phase reverts both and leaves the power-up list alone. -/
theorem movementPhase_collision (fA fB : FighterState) (aA aB : Action)
    (terrain : Terrain) (powerUps : List PowerUp)
    (hA : aA.type = .move ∨ aA.type = .dash)
    (hB : aB.type = .move ∨ aB.type = .dash)
    (hcol : resolveMovement fA aA terrain fB.position =
      resolveMovement fB aB terrain fA.position) :
    movementPhase fA fB aA aB terrain powerUps = ⟨fA, fB, powerUps⟩ := by
  unfold movementPhase
  dsimp only
  rw [if_pos hA, if_pos hB, if_pos ⟨hcol, hA, hB⟩]

/-- The logged state keeps A's attack-phase position. -/
theorem loggedState_fst_position (s : GameState) (aA aB : Action) (rolls : RoundRolls) :
    (loggedState s aA aB rolls).fighters.1.position =
      (corePhases s aA aB rolls).fA.position := rfl

/-- The logged state keeps B's attack-phase position. -/
theorem loggedState_snd_position (s : GameState) (aA aB : Action) (rolls : RoundRolls) :
    (loggedState s aA aB rolls).fighters.2.position =
      (corePhases s aA aB rolls).fB.position := rfl

/-- The logged state keeps the pre-round round counter. -/
theorem loggedState_round (s : GameState) (aA aB : Action) (rolls : RoundRolls) :
    (loggedState s aA aB rolls).round = s.round := rfl

/-- The logged state keeps the pre-round winner field. -/
theorem loggedState_winner (s : GameState) (aA aB : Action) (rolls : RoundRolls) :
    (loggedState s aA aB rolls).winner = s.winner := rfl

/-- C4: if both fighters issue movement actions and their independently
resolved destinations (each computed against the opponent's pre-round
position) coincide on the same tile, neither fighter's position changes
over the whole round. -/
theorem c4_collision_keeps_positions (s : GameState) (aA aB : Action)
    (rolls : RoundRolls)
    (hA : aA.type = .move ∨ aA.type = .dash)
    (hB : aB.type = .move ∨ aB.type = .dash)
    (hcol : roundDestA s aA aB = roundDestB s aA aB) :
    (applyRound s aA aB rolls).1.fighters.1.position = s.fighters.1.position ∧
    (applyRound s aA aB rolls).1.fighters.2.position = s.fighters.2.position := by
  have hA' : ¬ (aA.type = .attack ∨ aA.type = .special) := by
    rcases hA with h | h <;> rw [h] <;> decide
  have hB' : ¬ (aB.type = .attack ∨ aB.type = .special) := by
    rcases hB with h | h <;> rw [h] <;> decide
  have hcol' : resolveMovement (midFighter s.fighters.1 aA) aA s.terrain
      (midFighter s.fighters.2 aB).position =
      resolveMovement (midFighter s.fighters.2 aB) aB s.terrain
      (midFighter s.fighters.1 aA).position := hcol
  have hm := movementPhase_collision (midFighter s.fighters.1 aA)
    (midFighter s.fighters.2 aB) aA aB s.terrain s.powerUps hA hB hcol'
  have hatt := attackPhase_no_attack (midFighter s.fighters.1 aA)
    (midFighter s.fighters.2 aB) aA aB s.terrain
    (comboOf s.fighters.1 aA) (comboOf s.fighters.2 aB) rolls hA' hB'
  constructor <;>
    simp only [applyRound, endPhase_fst_position, endPhase_snd_position,
      loggedState_fst_position, loggedState_snd_position, corePhases,
      hm, hatt.1, hatt.2, midFighter_position]

/-- Closed witness for C4: two plain fighters at `(4,5)` and `(6,5)` move
east and west respectively; both resolved destinations are `(5,5)`, and
both stay put. -/
theorem c4_collision_keeps_positions_witness :
    (applyRound
      { fighters :=
          ( { sampleFighterA with position := ⟨4, 5⟩ },
            { sampleFighterB with position := ⟨6, 5⟩ } ),
        round := 1, log := [], winner := none, terrain := emptyGrid,
        powerUps := [], shrinkLevel := 0 }
      ⟨.move, some .east⟩ ⟨.move, some .west⟩ sampleRolls).1.fighters.1.position =
      (⟨4, 5⟩ : Pos) ∧
    (applyRound
      { fighters :=
          ( { sampleFighterA with position := ⟨4, 5⟩ },
            { sampleFighterB with position := ⟨6, 5⟩ } ),
        round := 1, log := [], winner := none, terrain := emptyGrid,
        powerUps := [], shrinkLevel := 0 }
      ⟨.move, some .east⟩ ⟨.move, some .west⟩ sampleRolls).1.fighters.2.position =
      (⟨6, 5⟩ : Pos) := by
  have h := c4_collision_keeps_positions
    { fighters :=
        ( { sampleFighterA with position := ⟨4, 5⟩ },
          { sampleFighterB with position := ⟨6, 5⟩ } ),
      round := 1, log := [], winner := none, terrain := emptyGrid,
      powerUps := [], shrinkLevel := 0 }
    ⟨.move, some .east⟩ ⟨.move, some .west⟩ sampleRolls
    (Or.inl rfl) (Or.inl rfl) (by decide)
  exact ⟨h.1, h.2⟩

/-- The end phase always increments the round counter by one. -/
theorem endPhase_round (s1 : GameState) (rolls : RoundRolls) :
    (endPhase s1 rolls).round = s1.round + 1 := by
  unfold endPhase
  dsimp only

/-- `winCheck` only reads the two hp fields. -/
theorem winCheck_hp_congr (f g f' g' : FighterState)
    (hf : f'.hp = f.hp) (hg : g'.hp = g.hp) : winCheck f' g' = winCheck f g := by
  unfold winCheck
  rw [hf, hg]

/-- On a state whose winner is still null, the end phase sets the winner by
the documented rule: the winner check on the post-attack hp values (both
`≤ 0` is a draw, exactly one `≤ 0` crowns the other), and otherwise — when
the incremented round counter exceeds `MAX_ROUNDS` — the higher-hp fighter
as read from the returned state (draw on equal hp). -/
theorem endPhase_winner_eq (s1 : GameState) (rolls : RoundRolls)
    (h : s1.winner = none) :
    (endPhase s1 rolls).winner =
      (match winCheck s1.fighters.1 s1.fighters.2 with
       | some w => some w
       | none =>
         if s1.round + 1 > MAX_ROUNDS then
           some (if (endPhase s1 rolls).fighters.1.hp = (endPhase s1 rolls).fighters.2.hp
              then Winner.draw
              else if (endPhase s1 rolls).fighters.1.hp > (endPhase s1 rolls).fighters.2.hp
                then Winner.a else Winner.b)
         else none) := by
  rcases hw : winCheck s1.fighters.1 s1.fighters.2 with _ | w
  · unfold endPhase
    dsimp only
    rw [h, hw]
    dsimp only
    by_cases hr : s1.round + 1 > MAX_ROUNDS
    · rw [if_pos ⟨hr, rfl⟩, if_pos hr]
    · rw [if_neg (fun hc => hr hc.1), if_neg hr]
  · unfold endPhase
    dsimp only
    rw [h, hw]
    dsimp only
    rw [if_neg (fun hc => Option.noConfusion hc.2)]

/-- C5 (amended): on an active state (winner null), `applyRound` increments
the round counter and sets the winner deterministically — draw when both
post-attack hp are `≤ 0`, the other fighter when exactly one is, and, when
the incremented round counter exceeds `MAX_ROUNDS` with no winner yet, the
higher-hp fighter of the returned state (draw on equal hp); otherwise the
winner stays null.  The engine does not guard terminal states, so this
transition discipline — and with it winner immutability — holds only under
the documented caller contract of never invoking `applyRound` once the
winner is set. -/
theorem c5_winner_transition (s : GameState) (aA aB : Action) (rolls : RoundRolls)
    (h : s.winner = none) :
    (applyRound s aA aB rolls).1.round = s.round + 1 ∧
    (applyRound s aA aB rolls).1.winner =
      (match winCheck (corePhases s aA aB rolls).fA (corePhases s aA aB rolls).fB with
       | some w => some w
       | none =>
         if s.round + 1 > MAX_ROUNDS then
           some (if (applyRound s aA aB rolls).1.fighters.1.hp =
                (applyRound s aA aB rolls).1.fighters.2.hp
              then Winner.draw
              else if (applyRound s aA aB rolls).1.fighters.1.hp >
                  (applyRound s aA aB rolls).1.fighters.2.hp
                then Winner.a else Winner.b)
         else none) := by
  constructor
  · simp only [applyRound, endPhase_round, loggedState_round]
  · simp only [applyRound]
    rw [endPhase_winner_eq (loggedState s aA aB rolls) rolls
      ((loggedState_winner s aA aB rolls).trans h)]
    rw [show winCheck (loggedState s aA aB rolls).fighters.1
          (loggedState s aA aB rolls).fighters.2 =
        winCheck (corePhases s aA aB rolls).fA (corePhases s aA aB rolls).fB from
      winCheck_hp_congr _ _ _ _ rfl rfl]
    rw [loggedState_round]

/-- Closed witness for the C5 amended theorem: both fighters defend on an
active round-1 state; the round counter becomes 2 and the winner stays
null. -/
theorem c5_winner_transition_witness :
    (applyRound
      { fighters := (sampleFighterA, sampleFighterB), round := 1, log := [],
        winner := none, terrain := emptyGrid, powerUps := [], shrinkLevel := 0 }
      ⟨.defend, none⟩ ⟨.defend, none⟩ sampleRolls).1.round = 2 ∧
    (applyRound
      { fighters := (sampleFighterA, sampleFighterB), round := 1, log := [],
        winner := none, terrain := emptyGrid, powerUps := [], shrinkLevel := 0 }
      ⟨.defend, none⟩ ⟨.defend, none⟩ sampleRolls).1.winner = none := by
  have h := c5_winner_transition
    { fighters := (sampleFighterA, sampleFighterB), round := 1, log := [],
      winner := none, terrain := emptyGrid, powerUps := [], shrinkLevel := 0 }
    ⟨.defend, none⟩ ⟨.defend, none⟩ sampleRolls rfl
  exact ⟨h.1.trans (by decide), h.2.trans (by decide)⟩

/-- A terminal state: A was declared winner (B is at 0 hp), but B has the
Regeneration passive and A is at 1 hp. -/
def staleTerminalState : GameState :=
  { fighters :=
      ( { sampleFighterA with hp := 1 },
        { sampleFighterB with
            hp := 0
            passive := ⟨"Regeneration", "Recover 3 HP per turn"⟩ } )
    round := 5
    log := []
    winner := some .a
    terrain := emptyGrid
    powerUps := []
    shrinkLevel := 0 }

set_option maxHeartbeats 1000000 in
/-- C5 counterexample: calling `applyRound` on a terminal state (winner
already `a`) lets the 0-hp fighter regenerate and kill the 1-hp fighter;
the stored winner flips from `a` to `b`, so a non-null winner is not
preserved by a further `applyRound` call. -/
theorem c5_counterexample_winner_altered :
    staleTerminalState.winner = some Winner.a ∧
    (applyRound staleTerminalState ⟨.charge, none⟩ ⟨.attack, none⟩
        sampleRolls).1.winner = some Winner.b := by
  exact ⟨by decide, by decide⟩

/-! Cooldown lemmas for C7. -/

/-- The phase 0 cooldown decrement (`if (c > 0) c--`). -/
def decrementCooldown (c : Int) : Int :=
  if c > 0 then c - 1 else c

/-- Phase 0 decrements the special cooldown exactly once. -/
theorem bookkeepFighter_specialCooldown (f : FighterState) :
    (bookkeepFighter f).specialCooldown = decrementCooldown f.specialCooldown := by
  unfold bookkeepFighter decrementCooldown
  dsimp only
  split_ifs <;> rfl

/-- Phase 0 decrements the dash cooldown exactly once. -/
theorem bookkeepFighter_dashCooldown (f : FighterState) :
    (bookkeepFighter f).dashCooldown = decrementCooldown f.dashCooldown := by
  unfold bookkeepFighter decrementCooldown
  dsimp only
  split_ifs <;> rfl

/-- Combo tracking does not touch the cooldowns. -/
theorem comboUpdate_cooldowns (f : FighterState) (a : Action) :
    ((comboUpdate f a).1).specialCooldown = f.specialCooldown ∧
    ((comboUpdate f a).1).dashCooldown = f.dashCooldown := by
  unfold comboUpdate
  dsimp only
  split_ifs <;> exact ⟨rfl, rfl⟩

/-- Stances do not touch the cooldowns. -/
theorem stanceFighter_cooldowns (f : FighterState) (a : Action) :
    (stanceFighter f a).specialCooldown = f.specialCooldown ∧
    (stanceFighter f a).dashCooldown = f.dashCooldown := by
  unfold stanceFighter
  rcases a with ⟨ty, dir⟩
  cases ty <;> dsimp only <;>
    first
      | (split_ifs <;> exact ⟨rfl, rfl⟩)
      | exact ⟨rfl, rfl⟩

/-- Phases 0-1 decrement each cooldown exactly once. -/
theorem midFighter_specialCooldown (f : FighterState) (a : Action) :
    (midFighter f a).specialCooldown = decrementCooldown f.specialCooldown := by
  unfold midFighter
  rw [(stanceFighter_cooldowns _ _).1, (comboUpdate_cooldowns _ _).1,
    bookkeepFighter_specialCooldown]

/-- Phases 0-1 decrement the dash cooldown exactly once. -/
theorem midFighter_dashCooldown (f : FighterState) (a : Action) :
    (midFighter f a).dashCooldown = decrementCooldown f.dashCooldown := by
  unfold midFighter
  rw [(stanceFighter_cooldowns _ _).2, (comboUpdate_cooldowns _ _).2,
    bookkeepFighter_dashCooldown]

/-- Picking up a power-up does not touch the cooldowns. -/
theorem pickupPowerUp_cooldowns (f : FighterState) (p : List PowerUp) :
    (pickupPowerUp f p).1.specialCooldown = f.specialCooldown ∧
    (pickupPowerUp f p).1.dashCooldown = f.dashCooldown := by
  unfold pickupPowerUp
  cases hfp : findPowerUp f.position p with
  | none => exact ⟨rfl, rfl⟩
  | some ip =>
    obtain ⟨idx, pu⟩ := ip
    obtain ⟨pos, ty⟩ := pu
    cases ty <;> exact ⟨rfl, rfl⟩

/-- Applying a resolved movement never touches the special cooldown, and
touches the dash cooldown only by resetting it on an off-cooldown dash. -/
theorem applyMove_cooldowns (f : FighterState) (a : Action) (dest : Pos)
    (p : List PowerUp) (t : Terrain) :
    (applyMove f a dest p t).1.specialCooldown = f.specialCooldown ∧
    ((applyMove f a dest p t).1.dashCooldown = f.dashCooldown ∨
      (a.type = .dash ∧ f.dashCooldown ≤ 0 ∧
        (applyMove f a dest p t).1.dashCooldown = DASH_COOLDOWN)) := by
  unfold applyMove
  dsimp only
  constructor
  · split_ifs <;> rw [(pickupPowerUp_cooldowns _ _).1]
  · split_ifs with hdash hlava hlava
    · exact Or.inr ⟨hdash.1, hdash.2, by rw [(pickupPowerUp_cooldowns _ _).2]⟩
    · exact Or.inr ⟨hdash.1, hdash.2, by rw [(pickupPowerUp_cooldowns _ _).2]⟩
    · exact Or.inl (by rw [(pickupPowerUp_cooldowns _ _).2])
    · exact Or.inl (by rw [(pickupPowerUp_cooldowns _ _).2])

/-- The movement phase never touches special cooldowns, and touches a dash
cooldown only by resetting it on that fighter's off-cooldown dash. -/
theorem movementPhase_cooldowns (fA fB : FighterState) (aA aB : Action)
    (t : Terrain) (p : List PowerUp) :
    (movementPhase fA fB aA aB t p).fA.specialCooldown = fA.specialCooldown ∧
    (movementPhase fA fB aA aB t p).fB.specialCooldown = fB.specialCooldown ∧
    ((movementPhase fA fB aA aB t p).fA.dashCooldown = fA.dashCooldown ∨
      (aA.type = .dash ∧ fA.dashCooldown ≤ 0 ∧
        (movementPhase fA fB aA aB t p).fA.dashCooldown = DASH_COOLDOWN)) ∧
    ((movementPhase fA fB aA aB t p).fB.dashCooldown = fB.dashCooldown ∨
      (aB.type = .dash ∧ fB.dashCooldown ≤ 0 ∧
        (movementPhase fA fB aA aB t p).fB.dashCooldown = DASH_COOLDOWN)) := by
  unfold movementPhase
  dsimp only
  split_ifs <;>
    exact ⟨by first | rfl | exact (applyMove_cooldowns _ _ _ _ _).1,
      by first | rfl | exact (applyMove_cooldowns _ _ _ _ _).1,
      by first | exact Or.inl rfl | exact (applyMove_cooldowns _ _ _ _ _).2,
      by first | exact Or.inl rfl | exact (applyMove_cooldowns _ _ _ _ _).2⟩

/-- `resolveAttack` never touches the attacker's dash cooldown, and touches
the attacker's special cooldown only by resetting an off-cooldown special. -/
theorem resolveAttack_attacker_cooldowns (attacker defender : FighterState)
    (action : Action) (terrain : Terrain) (combo : Frac) (r : AttackRolls) :
    (resolveAttack attacker defender action terrain combo r).1.dashCooldown =
      attacker.dashCooldown ∧
    ((resolveAttack attacker defender action terrain combo r).1.specialCooldown =
        attacker.specialCooldown ∨
      (action.type = .special ∧ attacker.specialCooldown ≤ 0 ∧
        (resolveAttack attacker defender action terrain combo r).1.specialCooldown =
          SPECIAL_COOLDOWN)) := by
  unfold resolveAttack
  rcases action with ⟨ty, dir⟩
  dsimp only
  cases ty
  case attack =>
    rw [if_pos rfl]
    split_ifs <;> exact ⟨rfl, Or.inl rfl⟩
  case special =>
    rw [if_neg (by decide), if_pos rfl]
    split_ifs with hcd hrange hlos hdodge
    · exact ⟨rfl, Or.inl rfl⟩
    · exact ⟨rfl, Or.inr ⟨rfl, not_lt.mp hcd, rfl⟩⟩
    · exact ⟨rfl, Or.inr ⟨rfl, not_lt.mp hcd, rfl⟩⟩
    · exact ⟨rfl, Or.inr ⟨rfl, not_lt.mp hcd, rfl⟩⟩
    · exact ⟨rfl, Or.inr ⟨rfl, not_lt.mp hcd, rfl⟩⟩
  all_goals
    rw [if_neg (by decide), if_neg (by decide)]
    exact ⟨rfl, Or.inl rfl⟩

/-- `resolveAttack` never touches the defender's cooldowns. -/
theorem resolveAttack_defender_cooldowns (attacker defender : FighterState)
    (action : Action) (terrain : Terrain) (combo : Frac) (r : AttackRolls) :
    (resolveAttack attacker defender action terrain combo r).2.1.specialCooldown =
      defender.specialCooldown ∧
    (resolveAttack attacker defender action terrain combo r).2.1.dashCooldown =
      defender.dashCooldown := by
  unfold resolveAttack
  rcases action with ⟨ty, dir⟩
  dsimp only
  cases ty
  case attack =>
    rw [if_pos rfl]
    split_ifs <;> exact ⟨rfl, rfl⟩
  case special =>
    rw [if_neg (by decide), if_pos rfl]
    split_ifs <;> exact ⟨rfl, rfl⟩
  all_goals
    rw [if_neg (by decide), if_neg (by decide)]
    exact ⟨rfl, rfl⟩

/-- The attack phase never touches dash cooldowns, and touches each
fighter's special cooldown only by resetting that fighter's off-cooldown
special. -/
theorem attackPhase_cooldowns (fA fB : FighterState) (aA aB : Action)
    (terrain : Terrain) (cA cB : Frac) (rolls : RoundRolls) :
    (attackPhase fA fB aA aB terrain cA cB rolls).fA.dashCooldown = fA.dashCooldown ∧
    (attackPhase fA fB aA aB terrain cA cB rolls).fB.dashCooldown = fB.dashCooldown ∧
    ((attackPhase fA fB aA aB terrain cA cB rolls).fA.specialCooldown =
        fA.specialCooldown ∨
      (aA.type = .special ∧ fA.specialCooldown ≤ 0 ∧
        (attackPhase fA fB aA aB terrain cA cB rolls).fA.specialCooldown =
          SPECIAL_COOLDOWN)) ∧
    ((attackPhase fA fB aA aB terrain cA cB rolls).fB.specialCooldown =
        fB.specialCooldown ∨
      (aB.type = .special ∧ fB.specialCooldown ≤ 0 ∧
        (attackPhase fA fB aA aB terrain cA cB rolls).fB.specialCooldown =
          SPECIAL_COOLDOWN)) := by
  unfold attackPhase
  dsimp only
  by_cases hA : aA.type = .attack ∨ aA.type = .special
  · by_cases hB : aB.type = .attack ∨ aB.type = .special
    · rw [if_pos hA, if_pos hB]
      refine ⟨?_, ?_, ?_, ?_⟩
      · rw [(resolveAttack_defender_cooldowns _ _ _ _ _ _).2,
          (resolveAttack_attacker_cooldowns _ _ _ _ _ _).1]
      · rw [(resolveAttack_attacker_cooldowns _ _ _ _ _ _).1,
          (resolveAttack_defender_cooldowns _ _ _ _ _ _).2]
      · rw [(resolveAttack_defender_cooldowns _ _ _ _ _ _).1]
        exact (resolveAttack_attacker_cooldowns _ _ _ _ _ _).2
      · have hd := (resolveAttack_defender_cooldowns fA fB aA terrain cA rolls.a).1
        rcases (resolveAttack_attacker_cooldowns
            (resolveAttack fA fB aA terrain cA rolls.a).2.1
            (resolveAttack fA fB aA terrain cA rolls.a).1 aB terrain cB rolls.b).2 with
          h | ⟨h1, h2, h3⟩
        · exact Or.inl (h.trans hd)
        · exact Or.inr ⟨h1, hd ▸ h2, h3⟩
    · rw [if_pos hA, if_neg hB]
      exact ⟨(resolveAttack_attacker_cooldowns _ _ _ _ _ _).1,
        (resolveAttack_defender_cooldowns _ _ _ _ _ _).2,
        (resolveAttack_attacker_cooldowns _ _ _ _ _ _).2,
        Or.inl (resolveAttack_defender_cooldowns _ _ _ _ _ _).1⟩
  · by_cases hB : aB.type = .attack ∨ aB.type = .special
    · rw [if_neg hA, if_pos hB]
      exact ⟨(resolveAttack_defender_cooldowns _ _ _ _ _ _).2,
        (resolveAttack_attacker_cooldowns _ _ _ _ _ _).1,
        Or.inl (resolveAttack_defender_cooldowns _ _ _ _ _ _).1,
        (resolveAttack_attacker_cooldowns _ _ _ _ _ _).2⟩
    · rw [if_neg hA, if_neg hB]
      exact ⟨rfl, rfl, Or.inl rfl, Or.inl rfl⟩

/-- The end phase never touches the cooldowns. -/
theorem endPhase_cooldowns (s1 : GameState) (rolls : RoundRolls) :
    (endPhase s1 rolls).fighters.1.specialCooldown = s1.fighters.1.specialCooldown ∧
    (endPhase s1 rolls).fighters.1.dashCooldown = s1.fighters.1.dashCooldown ∧
    (endPhase s1 rolls).fighters.2.specialCooldown = s1.fighters.2.specialCooldown ∧
    (endPhase s1 rolls).fighters.2.dashCooldown = s1.fighters.2.dashCooldown := by
  unfold endPhase
  dsimp only
  split_ifs <;> exact ⟨rfl, rfl, rfl, rfl⟩

/-- The logged state keeps the attack-phase cooldowns. -/
theorem loggedState_cooldowns (s : GameState) (aA aB : Action) (rolls : RoundRolls) :
    (loggedState s aA aB rolls).fighters.1.specialCooldown =
      (corePhases s aA aB rolls).fA.specialCooldown ∧
    (loggedState s aA aB rolls).fighters.1.dashCooldown =
      (corePhases s aA aB rolls).fA.dashCooldown ∧
    (loggedState s aA aB rolls).fighters.2.specialCooldown =
      (corePhases s aA aB rolls).fB.specialCooldown ∧
    (loggedState s aA aB rolls).fighters.2.dashCooldown =
      (corePhases s aA aB rolls).fB.dashCooldown :=
  ⟨rfl, rfl, rfl, rfl⟩

/-- Phases 0-3 together: each cooldown is decremented exactly once, except
that a successful use of the corresponding action resets it to its constant. -/
theorem corePhases_cooldowns (s : GameState) (aA aB : Action) (rolls : RoundRolls) :
    ((corePhases s aA aB rolls).fA.specialCooldown =
        decrementCooldown s.fighters.1.specialCooldown ∨
      (aA.type = .special ∧ decrementCooldown s.fighters.1.specialCooldown ≤ 0 ∧
        (corePhases s aA aB rolls).fA.specialCooldown = SPECIAL_COOLDOWN)) ∧
    ((corePhases s aA aB rolls).fA.dashCooldown =
        decrementCooldown s.fighters.1.dashCooldown ∨
      (aA.type = .dash ∧ decrementCooldown s.fighters.1.dashCooldown ≤ 0 ∧
        (corePhases s aA aB rolls).fA.dashCooldown = DASH_COOLDOWN)) ∧
    ((corePhases s aA aB rolls).fB.specialCooldown =
        decrementCooldown s.fighters.2.specialCooldown ∨
      (aB.type = .special ∧ decrementCooldown s.fighters.2.specialCooldown ≤ 0 ∧
        (corePhases s aA aB rolls).fB.specialCooldown = SPECIAL_COOLDOWN)) ∧
    ((corePhases s aA aB rolls).fB.dashCooldown =
        decrementCooldown s.fighters.2.dashCooldown ∨
      (aB.type = .dash ∧ decrementCooldown s.fighters.2.dashCooldown ≤ 0 ∧
        (corePhases s aA aB rolls).fB.dashCooldown = DASH_COOLDOWN)) := by
  unfold corePhases
  dsimp only
  have hmA_s := midFighter_specialCooldown s.fighters.1 aA
  have hmA_d := midFighter_dashCooldown s.fighters.1 aA
  have hmB_s := midFighter_specialCooldown s.fighters.2 aB
  have hmB_d := midFighter_dashCooldown s.fighters.2 aB
  obtain ⟨mv1, mv2, mv3, mv4⟩ := movementPhase_cooldowns
    (midFighter s.fighters.1 aA) (midFighter s.fighters.2 aB) aA aB s.terrain s.powerUps
  obtain ⟨ap1, ap2, ap3, ap4⟩ := attackPhase_cooldowns
    (movementPhase (midFighter s.fighters.1 aA) (midFighter s.fighters.2 aB) aA aB
      s.terrain s.powerUps).fA
    (movementPhase (midFighter s.fighters.1 aA) (midFighter s.fighters.2 aB) aA aB
      s.terrain s.powerUps).fB
    aA aB s.terrain (comboOf s.fighters.1 aA) (comboOf s.fighters.2 aB) rolls
  refine ⟨?_, ?_, ?_, ?_⟩
  · rcases ap3 with h | ⟨h1, h2, h3⟩
    · exact Or.inl (by rw [h, mv1, hmA_s])
    · exact Or.inr ⟨h1, by rw [mv1, hmA_s] at h2; exact h2, h3⟩
  · rcases mv3 with h | ⟨h1, h2, h3⟩
    · exact Or.inl (by rw [ap1, h, hmA_d])
    · exact Or.inr ⟨h1, by rw [hmA_d] at h2; exact h2, by rw [ap1, h3]⟩
  · rcases ap4 with h | ⟨h1, h2, h3⟩
    · exact Or.inl (by rw [h, mv2, hmB_s])
    · exact Or.inr ⟨h1, by rw [mv2, hmB_s] at h2; exact h2, h3⟩
  · rcases mv4 with h | ⟨h1, h2, h3⟩
    · exact Or.inl (by rw [ap2, h, hmB_d])
    · exact Or.inr ⟨h1, by rw [hmB_d] at h2; exact h2, by rw [ap2, h3]⟩

/-- C7: in every `applyRound` call on an active state with non-negative
cooldowns, each fighter's `specialCooldown` and `dashCooldown` stay
non-negative, change only by the single phase 0 decrement, and are reset to
their constant (3) only on a successful use of the corresponding action
(the action was chosen and its cooldown had reached 0). -/
theorem c7_cooldown_discipline (s : GameState) (aA aB : Action) (rolls : RoundRolls)
    (hw : s.winner = none)
    (hA1 : 0 ≤ s.fighters.1.specialCooldown) (hA2 : 0 ≤ s.fighters.1.dashCooldown)
    (hB1 : 0 ≤ s.fighters.2.specialCooldown) (hB2 : 0 ≤ s.fighters.2.dashCooldown) :
    (0 ≤ (applyRound s aA aB rolls).1.fighters.1.specialCooldown ∧
      ((applyRound s aA aB rolls).1.fighters.1.specialCooldown =
          decrementCooldown s.fighters.1.specialCooldown ∨
        (aA.type = .special ∧ decrementCooldown s.fighters.1.specialCooldown ≤ 0 ∧
          (applyRound s aA aB rolls).1.fighters.1.specialCooldown = SPECIAL_COOLDOWN))) ∧
    (0 ≤ (applyRound s aA aB rolls).1.fighters.1.dashCooldown ∧
      ((applyRound s aA aB rolls).1.fighters.1.dashCooldown =
          decrementCooldown s.fighters.1.dashCooldown ∨
        (aA.type = .dash ∧ decrementCooldown s.fighters.1.dashCooldown ≤ 0 ∧
          (applyRound s aA aB rolls).1.fighters.1.dashCooldown = DASH_COOLDOWN))) ∧
    (0 ≤ (applyRound s aA aB rolls).1.fighters.2.specialCooldown ∧
      ((applyRound s aA aB rolls).1.fighters.2.specialCooldown =
          decrementCooldown s.fighters.2.specialCooldown ∨
        (aB.type = .special ∧ decrementCooldown s.fighters.2.specialCooldown ≤ 0 ∧
          (applyRound s aA aB rolls).1.fighters.2.specialCooldown = SPECIAL_COOLDOWN))) ∧
    (0 ≤ (applyRound s aA aB rolls).1.fighters.2.dashCooldown ∧
      ((applyRound s aA aB rolls).1.fighters.2.dashCooldown =
          decrementCooldown s.fighters.2.dashCooldown ∨
        (aB.type = .dash ∧ decrementCooldown s.fighters.2.dashCooldown ≤ 0 ∧
          (applyRound s aA aB rolls).1.fighters.2.dashCooldown = DASH_COOLDOWN))) := by
  have eAs : (applyRound s aA aB rolls).1.fighters.1.specialCooldown =
      (corePhases s aA aB rolls).fA.specialCooldown := by
    simp only [applyRound]
    rw [(endPhase_cooldowns _ _).1, (loggedState_cooldowns _ _ _ _).1]
  have eAd : (applyRound s aA aB rolls).1.fighters.1.dashCooldown =
      (corePhases s aA aB rolls).fA.dashCooldown := by
    simp only [applyRound]
    rw [(endPhase_cooldowns _ _).2.1, (loggedState_cooldowns _ _ _ _).2.1]
  have eBs : (applyRound s aA aB rolls).1.fighters.2.specialCooldown =
      (corePhases s aA aB rolls).fB.specialCooldown := by
    simp only [applyRound]
    rw [(endPhase_cooldowns _ _).2.2.1, (loggedState_cooldowns _ _ _ _).2.2.1]
  have eBd : (applyRound s aA aB rolls).1.fighters.2.dashCooldown =
      (corePhases s aA aB rolls).fB.dashCooldown := by
    simp only [applyRound]
    rw [(endPhase_cooldowns _ _).2.2.2, (loggedState_cooldowns _ _ _ _).2.2.2]
  obtain ⟨c1, c2, c3, c4⟩ := corePhases_cooldowns s aA aB rolls
  refine ⟨⟨?_, ?_⟩, ⟨?_, ?_⟩, ⟨?_, ?_⟩, ⟨?_, ?_⟩⟩
  · rw [eAs]
    rcases c1 with h | ⟨h1, h2, h⟩ <;> rw [h]
    · unfold decrementCooldown
      split_ifs <;> omega
    · decide
  · rw [eAs]
    exact c1
  · rw [eAd]
    rcases c2 with h | ⟨h1, h2, h⟩ <;> rw [h]
    · unfold decrementCooldown
      split_ifs <;> omega
    · decide
  · rw [eAd]
    exact c2
  · rw [eBs]
    rcases c3 with h | ⟨h1, h2, h⟩ <;> rw [h]
    · unfold decrementCooldown
      split_ifs <;> omega
    · decide
  · rw [eBs]
    exact c3
  · rw [eBd]
    rcases c4 with h | ⟨h1, h2, h⟩ <;> rw [h]
    · unfold decrementCooldown
      split_ifs <;> omega
    · decide
  · rw [eBd]
    exact c4

/-- An active round-1 state with both plain fighters at their spawn-side
tiles. -/
def sampleState : GameState :=
  { fighters := (sampleFighterA, sampleFighterB)
    round := 1
    log := []
    winner := none
    terrain := emptyGrid
    powerUps := []
    shrinkLevel := 0 }

/-- Closed witness for C7: fighter A dashes (an off-cooldown use), B
defends; all four post-round cooldowns are non-negative. -/
theorem c7_cooldown_discipline_witness :
    0 ≤ (applyRound sampleState ⟨.dash, some .east⟩ ⟨.defend, none⟩
        sampleRolls).1.fighters.1.specialCooldown ∧
    0 ≤ (applyRound sampleState ⟨.dash, some .east⟩ ⟨.defend, none⟩
        sampleRolls).1.fighters.1.dashCooldown ∧
    0 ≤ (applyRound sampleState ⟨.dash, some .east⟩ ⟨.defend, none⟩
        sampleRolls).1.fighters.2.specialCooldown ∧
    0 ≤ (applyRound sampleState ⟨.dash, some .east⟩ ⟨.defend, none⟩
        sampleRolls).1.fighters.2.dashCooldown := by
  have h := c7_cooldown_discipline sampleState ⟨.dash, some .east⟩ ⟨.defend, none⟩
    sampleRolls rfl (by decide) (by decide) (by decide) (by decide)
  exact ⟨h.1.1, h.2.1.1, h.2.2.1.1, h.2.2.2.1⟩

/-! HP-bounds invariant (C3). -/

/-- The per-fighter hp invariant: `0 ≤ hp ≤ maxHp`. -/
def hpInvF (f : FighterState) : Prop :=
  0 ≤ f.hp ∧ f.hp ≤ f.maxHp

/-- The per-state hp invariant. -/
def hpInv (s : GameState) : Prop :=
  hpInvF s.fighters.1 ∧ hpInvF s.fighters.2

/-- A floored product with a non-negative fraction is non-negative. -/
theorem floorMul_nonneg (d : Int) (m : Frac) (hd : 0 ≤ d) (hn : 0 ≤ m.num)
    (hden : 0 ≤ m.den) : 0 ≤ floorMul d m :=
  Int.fdiv_nonneg (mul_nonneg hd hn) hden

/-- The offensive damage pipeline yields non-negative damage for a
non-negative base and combo multiplier. -/
theorem computeAttackDamage_nonneg (baseDmg : Int) (a : FighterState)
    (combo : Frac) (cr ur : Bool) (hb : 0 ≤ baseDmg) (hn : 0 ≤ combo.num)
    (hd : 0 ≤ combo.den) :
    0 ≤ (computeAttackDamage baseDmg a combo cr ur).damage := by
  unfold computeAttackDamage
  dsimp only
  split_ifs <;>
    (repeat
      first
        | exact floorMul_nonneg _ _ hb hn hd
        | apply floorMul_nonneg
        | apply Int.add_nonneg
        | decide)

/-- The defensive pipeline yields non-negative damage from non-negative
damage. -/
theorem applyDefenses_nonneg (damage : Int) (f : FighterState) (roll : Bool)
    (hd : 0 ≤ damage) : 0 ≤ (applyDefenses damage f roll).finalDamage := by
  unfold applyDefenses
  dsimp only
  split_ifs <;>
    (repeat
      first
        | exact hd
        | apply floorMul_nonneg
        | decide)

/-- The combo multiplier is always a non-negative fraction. -/
theorem comboOf_nonneg (f : FighterState) (a : Action) :
    0 ≤ (comboOf f a).num ∧ 0 ≤ (comboOf f a).den := by
  unfold comboOf comboUpdate
  dsimp only
  split_ifs <;> exact ⟨by decide, by decide⟩

/-- Phase 0 preserves the hp bounds. -/
theorem bookkeepFighter_hpInv (f : FighterState) (h : hpInvF f) :
    hpInvF (bookkeepFighter f) := by
  obtain ⟨h1, h2⟩ := h
  unfold bookkeepFighter
  dsimp only
  split_ifs <;> exact ⟨by dsimp only; omega, by dsimp only; omega⟩

/-- Combo tracking preserves the hp bounds. -/
theorem comboUpdate_hpInv (f : FighterState) (a : Action) (h : hpInvF f) :
    hpInvF ((comboUpdate f a).1) := by
  obtain ⟨h1, h2⟩ := h
  unfold comboUpdate
  dsimp only
  split_ifs <;> exact ⟨h1, h2⟩

/-- Stances preserve the hp bounds. -/
theorem stanceFighter_hpInv (f : FighterState) (a : Action) (h : hpInvF f) :
    hpInvF (stanceFighter f a) := by
  obtain ⟨h1, h2⟩ := h
  unfold stanceFighter
  rcases a with ⟨ty, dir⟩
  cases ty <;> dsimp only <;>
    first
      | (split_ifs <;>
          exact ⟨by (try dsimp only); (try simp only [HEAL_AMOUNT]); omega,
            by (try dsimp only); (try simp only [HEAL_AMOUNT]); omega⟩)
      | exact ⟨h1, h2⟩

/-- Phases 0-1 preserve the hp bounds. -/
theorem midFighter_hpInv (f : FighterState) (a : Action) (h : hpInvF f) :
    hpInvF (midFighter f a) :=
  stanceFighter_hpInv _ _ (comboUpdate_hpInv _ _ (bookkeepFighter_hpInv _ h))

/-- Picking up a power-up preserves the hp bounds. -/
theorem pickupPowerUp_hpInv (f : FighterState) (p : List PowerUp) (h : hpInvF f) :
    hpInvF (pickupPowerUp f p).1 := by
  obtain ⟨h1, h2⟩ := h
  unfold pickupPowerUp
  cases hfp : findPowerUp f.position p with
  | none => exact ⟨h1, h2⟩
  | some ip =>
    obtain ⟨idx, pu⟩ := ip
    obtain ⟨pos, ty⟩ := pu
    cases ty <;> exact ⟨by dsimp only; omega, by dsimp only; omega⟩

/-- Taking clamped damage preserves the hp bounds. -/
theorem hpInvF_damage (f : FighterState) (d : Int) (h : hpInvF f) (hd : 0 ≤ d) :
    hpInvF { f with hp := max 0 (f.hp - d) } := by
  obtain ⟨h1, h2⟩ := h
  exact ⟨by dsimp only; omega, by dsimp only; omega⟩

/-- Applying a resolved movement preserves the hp bounds. -/
theorem applyMove_hpInv (f : FighterState) (a : Action) (dest : Pos)
    (p : List PowerUp) (t : Terrain) (h : hpInvF f) :
    hpInvF (applyMove f a dest p t).1 := by
  unfold applyMove
  dsimp only
  split_ifs <;>
    first
      | exact hpInvF_damage _ _ (pickupPowerUp_hpInv _ _ h) (by decide)
      | exact pickupPowerUp_hpInv _ _ h

/-- The movement phase preserves both fighters' hp bounds. -/
theorem movementPhase_hpInv (fA fB : FighterState) (aA aB : Action)
    (t : Terrain) (p : List PowerUp) (hA : hpInvF fA) (hB : hpInvF fB) :
    hpInvF (movementPhase fA fB aA aB t p).fA ∧
    hpInvF (movementPhase fA fB aA aB t p).fB := by
  unfold movementPhase
  dsimp only
  split_ifs <;>
    exact ⟨by first | exact hA | exact applyMove_hpInv _ _ _ _ _ hA,
      by first | exact hB | exact applyMove_hpInv _ _ _ _ _ hB⟩

/-- Attack resolution preserves both fighters' hp bounds (all damage is
non-negative, and every hp write clamps at 0). -/
theorem resolveAttack_hpInv (attacker defender : FighterState) (action : Action)
    (terrain : Terrain) (combo : Frac) (r : AttackRolls)
    (hA : hpInvF attacker) (hD : hpInvF defender)
    (hn : 0 ≤ combo.num) (hdn : 0 ≤ combo.den) :
    hpInvF (resolveAttack attacker defender action terrain combo r).1 ∧
    hpInvF (resolveAttack attacker defender action terrain combo r).2.1 := by
  have hdmg : 0 ≤ (applyDefenses
      (computeAttackDamage r.baseDmg attacker combo r.critRoll r.unpredRoll).damage
      defender r.dodgeRoll).finalDamage :=
    applyDefenses_nonneg _ _ _
      (computeAttackDamage_nonneg _ _ _ _ _ (Int.natCast_nonneg _) hn hdn)
  obtain ⟨a1, a2⟩ := hA
  obtain ⟨d1, d2⟩ := hD
  unfold resolveAttack
  rcases action with ⟨ty, dir⟩
  dsimp only
  cases ty
  case attack =>
    rw [if_pos rfl]
    split_ifs <;>
      refine ⟨⟨?_, ?_⟩, ⟨?_, ?_⟩⟩ <;>
        (try dsimp only) <;>
        (try simp only [COUNTER_DAMAGE, WALL_KNOCKBACK_DAMAGE, LAVA_DAMAGE]) <;>
        omega
  case special =>
    rw [if_neg (by decide), if_pos rfl]
    split_ifs <;>
      refine ⟨⟨?_, ?_⟩, ⟨?_, ?_⟩⟩ <;>
        (try dsimp only) <;>
        (try simp only [COUNTER_DAMAGE, WALL_KNOCKBACK_DAMAGE, LAVA_DAMAGE]) <;>
        omega
  all_goals
    rw [if_neg (by decide), if_neg (by decide)]
    exact ⟨⟨a1, a2⟩, d1, d2⟩

/-- The attack phase preserves both fighters' hp bounds. -/
theorem attackPhase_hpInv (fA fB : FighterState) (aA aB : Action)
    (terrain : Terrain) (cA cB : Frac) (rolls : RoundRolls)
    (hA : hpInvF fA) (hB : hpInvF fB)
    (hcA : 0 ≤ cA.num ∧ 0 ≤ cA.den) (hcB : 0 ≤ cB.num ∧ 0 ≤ cB.den) :
    hpInvF (attackPhase fA fB aA aB terrain cA cB rolls).fA ∧
    hpInvF (attackPhase fA fB aA aB terrain cA cB rolls).fB := by
  unfold attackPhase
  dsimp only
  by_cases h1 : aA.type = .attack ∨ aA.type = .special
  · by_cases h2 : aB.type = .attack ∨ aB.type = .special
    · rw [if_pos h1, if_pos h2]
      have r1 := resolveAttack_hpInv fA fB aA terrain cA rolls.a hA hB hcA.1 hcA.2
      have r2 := resolveAttack_hpInv (resolveAttack fA fB aA terrain cA rolls.a).2.1
        (resolveAttack fA fB aA terrain cA rolls.a).1 aB terrain cB rolls.b
        r1.2 r1.1 hcB.1 hcB.2
      exact ⟨r2.2, r2.1⟩
    · rw [if_pos h1, if_neg h2]
      have r1 := resolveAttack_hpInv fA fB aA terrain cA rolls.a hA hB hcA.1 hcA.2
      exact ⟨r1.1, r1.2⟩
  · by_cases h2 : aB.type = .attack ∨ aB.type = .special
    · rw [if_neg h1, if_pos h2]
      have r2 := resolveAttack_hpInv fB fA aB terrain cB rolls.b hB hA hcB.1 hcB.2
      exact ⟨r2.2, r2.1⟩
    · rw [if_neg h1, if_neg h2]
      exact ⟨hA, hB⟩

/-- The end phase preserves the hp bounds. -/
theorem endPhase_hpInv (s1 : GameState) (rolls : RoundRolls) (h : hpInv s1) :
    hpInv (endPhase s1 rolls) := by
  obtain ⟨⟨a1, a2⟩, b1, b2⟩ := h
  unfold endPhase
  dsimp only
  split_ifs <;>
    refine ⟨⟨?_, ?_⟩, ⟨?_, ?_⟩⟩ <;>
      (try dsimp only) <;>
      (try simp only [LAVA_DAMAGE]) <;>
      omega

/-- Phases 0-3 preserve both fighters' hp bounds. -/
theorem corePhases_hpInv (s : GameState) (aA aB : Action) (rolls : RoundRolls)
    (h : hpInv s) :
    hpInvF (corePhases s aA aB rolls).fA ∧ hpInvF (corePhases s aA aB rolls).fB := by
  unfold corePhases
  dsimp only
  have m := movementPhase_hpInv (midFighter s.fighters.1 aA)
    (midFighter s.fighters.2 aB) aA aB s.terrain s.powerUps
    (midFighter_hpInv _ _ h.1) (midFighter_hpInv _ _ h.2)
  have at_ := attackPhase_hpInv
    (movementPhase (midFighter s.fighters.1 aA) (midFighter s.fighters.2 aB) aA aB
      s.terrain s.powerUps).fA
    (movementPhase (midFighter s.fighters.1 aA) (midFighter s.fighters.2 aB) aA aB
      s.terrain s.powerUps).fB
    aA aB s.terrain (comboOf s.fighters.1 aA) (comboOf s.fighters.2 aB) rolls
    m.1 m.2 (comboOf_nonneg _ _) (comboOf_nonneg _ _)
  exact at_

/-- One full round preserves the hp bounds. -/
theorem applyRound_hpInv (s : GameState) (aA aB : Action) (rolls : RoundRolls)
    (h : hpInv s) : hpInv (applyRound s aA aB rolls).1 := by
  simp only [applyRound]
  exact endPhase_hpInv _ _
    ⟨(corePhases_hpInv s aA aB rolls h).1, (corePhases_hpInv s aA aB rolls h).2⟩

/-- The initial state satisfies the hp bounds. -/
theorem createInitialState_hpInv (modelAId modelAName modelBId modelBName : String)
    (wallCount lavaCount : Nat) (wallDraws lavaDraws : List (Int × Int)) :
    hpInv (createInitialState modelAId modelAName modelBId modelBName
      wallCount lavaCount wallDraws lavaDraws) :=
  ⟨⟨show (0 : Int) ≤ 100 by decide, show (100 : Int) ≤ 100 by decide⟩,
    show (0 : Int) ≤ 100 by decide, show (100 : Int) ≤ 100 by decide⟩

/-- C3: every state reachable from an initial state through `applyRound`
calls on active states keeps both fighters' hp within `[0, maxHp]`. -/
theorem c3_hp_bounds (s : GameState) (h : Reachable s) :
    0 ≤ s.fighters.1.hp ∧ s.fighters.1.hp ≤ s.fighters.1.maxHp ∧
    0 ≤ s.fighters.2.hp ∧ s.fighters.2.hp ≤ s.fighters.2.maxHp := by
  have hinv : hpInv s := by
    induction h with
    | init modelAId modelAName modelBId modelBName wallCount lavaCount wallDraws lavaDraws =>
      exact createInitialState_hpInv _ _ _ _ _ _ _ _
    | step s aA aB rolls hr hw ih => exact applyRound_hpInv _ _ _ _ ih
  exact ⟨hinv.1.1, hinv.1.2, hinv.2.1, hinv.2.2⟩

/-- Closed witness for C3: the state after one melee round from a fresh
battle satisfies the hp bounds. -/
theorem c3_hp_bounds_witness :
    0 ≤ (applyRound (createInitialState "model-a" "A" "model-b" "B" 0 0 [] [])
        ⟨.attack, none⟩ ⟨.defend, none⟩ sampleRolls).1.fighters.1.hp ∧
    (applyRound (createInitialState "model-a" "A" "model-b" "B" 0 0 [] [])
        ⟨.attack, none⟩ ⟨.defend, none⟩ sampleRolls).1.fighters.1.hp ≤
      (applyRound (createInitialState "model-a" "A" "model-b" "B" 0 0 [] [])
        ⟨.attack, none⟩ ⟨.defend, none⟩ sampleRolls).1.fighters.1.maxHp ∧
    0 ≤ (applyRound (createInitialState "model-a" "A" "model-b" "B" 0 0 [] [])
        ⟨.attack, none⟩ ⟨.defend, none⟩ sampleRolls).1.fighters.2.hp ∧
    (applyRound (createInitialState "model-a" "A" "model-b" "B" 0 0 [] [])
        ⟨.attack, none⟩ ⟨.defend, none⟩ sampleRolls).1.fighters.2.hp ≤
      (applyRound (createInitialState "model-a" "A" "model-b" "B" 0 0 [] [])
        ⟨.attack, none⟩ ⟨.defend, none⟩ sampleRolls).1.fighters.2.maxHp :=
  c3_hp_bounds _ (Reachable.step _ _ _ _
    (Reachable.init "model-a" "A" "model-b" "B" 0 0 [] []) rfl)

end Arena
